import Mathlib

/-!
# Snake (src/main.cpp): the game simulation loop

A shallow embedding of the simulation core of `src/main.cpp`: the `Vector`,
`Transform` and `Entity` structs, the `Global` session variables, and the
functions `HasCollided`, `GameOver`, `ResetGame`, `SetDifficulty`,
`HandleInput`, `NewLevel` and `UpdateGame`.

Modelling conventions.

* `float` is an arbitrary carrier `F` with the operations the source uses
  (`+ - * /`, unary minus, `std::sqrt`, `<`, `!=`, decimal literals).  No
  algebraic law is assumed except that `x < x` is false, so every theorem
  holds for IEEE binary32 as well as for exact arithmetic.  Concrete scenarios
  are evaluated in the decimal fixed-point instance `Fixed` and, where the outcome
  depends on rounding, in the instance `Binary32`.
* `unsigned int` is `Nat` with explicit reduction modulo `UINT_MOD = 2^32`
  at every increment, addition, multiplication and subtraction.
* The globals of `namespace Global` and the locals of `WinMain` that are
  passed by reference (`snake`, `fruit`, `tail`, `tails`) are the fields of
  one record `Game`, passed explicitly.
* `std::vector<Entity>` is a list together with its capacity: `push_back`
  copy-constructs the new element and, when the storage is full, the
  existing elements too.
* The environment is explicit: `rand` is the stream of points returned by
  `GenerateRandomPoint`, `randCalls` counts the calls, `cues` records the
  calls of the two sound functions and `audioQueue` what they queue.
-/

set_option linter.unusedSectionVars false
set_option linter.unusedVariables false

namespace Snake

/-! ## Scalars -/

/-- Modulus of `unsigned int` arithmetic. -/
def UINT_MOD : Nat := 4294967296

/-- Unsigned subtraction `a - b` (wraps around below zero). -/
def usub (a b : Nat) : Nat := (a % UINT_MOD + UINT_MOD - b % UINT_MOD) % UINT_MOD

/-- The operations of `float` used by the source. `lt` is `<`, `ne` is `!=`. -/
class FloatOps (F : Type) extends Add F, Sub F, Mul F, Div F, Neg F, OfScientific F where
  /-- The function `std::sqrt`. -/
  sqrt : F → F
  /-- The comparison `a < b`. -/
  lt : F → F → Bool
  /-- The comparison `a != b`. -/
  ne : F → F → Bool
  /-- No value is strictly below itself. -/
  lt_irrefl : ∀ x : F, lt x x = false

/-- Integer square root by Newton iteration from the guess `x`, at most `fuel` steps. -/
def isqrtAux (n : Nat) : Nat → Nat → Nat
  | 0, x => x
  | fuel + 1, x => if (x + n / x) / 2 < x then isqrtAux n fuel ((x + n / x) / 2) else x

/-- Integer square root (rounded down). -/
def isqrt (n : Nat) : Nat := if n = 0 then 0 else isqrtAux n 128 n

/-- Decimal fixed-point numbers with six fractional digits: `raw` counts millionths.
A concrete rounding arithmetic in which scenarios are evaluated. -/
structure Fixed where
  raw : Int
  deriving DecidableEq, Repr

/-- Fixed-point arithmetic, every result rounded to a multiple of one millionth. -/
instance instFloatOpsFixed : FloatOps Fixed where
  add a b := ⟨a.raw + b.raw⟩
  sub a b := ⟨a.raw - b.raw⟩
  mul a b := ⟨a.raw * b.raw / 1000000⟩
  div a b := ⟨a.raw * 1000000 / b.raw⟩
  neg a := ⟨-a.raw⟩
  ofScientific m s e := if s = true then ⟨(m * 1000000 / 10 ^ e : Nat)⟩ else ⟨(m * 10 ^ e * 1000000 : Nat)⟩
  sqrt a := ⟨(isqrt (a.raw.toNat * 1000000) : Nat)⟩
  lt a b := decide (a.raw < b.raw)
  ne a b := decide (a.raw ≠ b.raw)
  lt_irrefl := by intro x; simp

/-! ### IEEE binary32

The arithmetic of `float` itself, for the scenarios whose outcome depends on rounding:
every operation returns the representable value nearest to the exact result, ties to even,
with gradual underflow. The two zeros are identified, and so are the infinities and NaN
(`nonfinite`); no scenario below produces a non-finite value. -/

/-- The number of binary digits of `n`, found in at most `fuel` halvings. -/
def bitLength : Nat → Nat → Nat
  | 0, _ => 0
  | fuel + 1, n => if n = 0 then 0 else bitLength fuel (n / 2) + 1

/-- The values of binary32: the finite ones as `m * 2^e` with `m` odd (or `m = 0`, `e = 0`),
and one value for the infinities and NaN. -/
inductive Binary32 where
  | finite (m : Int) (e : Int)
  | nonfinite
  deriving DecidableEq, Repr

namespace Binary32

/-- The canonical form of `n * 2^e`: `n` is halved while it is even. -/
def normalize : Nat → Nat → Int → Nat × Int
  | 0, n, e => (n, e)
  | fuel + 1, n, e =>
    if n = 0 then (0, 0)
    else if n % 2 = 0 then normalize fuel (n / 2) (e + 1) else (n, e)

/-- The binary32 value nearest to `num / den`, ties to even: `E` is the binary exponent
of the quotient, `2^q` the spacing of binary32 there (24 significant digits, never below
`2^-149`), `n` the quotient in units of `2^q` after rounding. -/
def roundRat (num : Int) (den : Nat) : Binary32 :=
  if den = 0 then nonfinite
  else if num = 0 then finite 0 0
  else
    let a := num.natAbs
    let k : Int := (bitLength 4096 a : Int) - (bitLength 4096 den : Int)
    let E : Int := if den * 2 ^ k.toNat ≤ a * 2 ^ (-k).toNat then k else k - 1
    let q : Int := max (E - 23) (-149)
    let N := a * 2 ^ (-q).toNat
    let D := den * 2 ^ q.toNat
    let n := N / D
    let r := N % D
    let n := if D < 2 * r then n + 1 else if 2 * r = D ∧ n % 2 = 1 then n + 1 else n
    if 2 ^ 128 ≤ n * 2 ^ q.toNat then nonfinite
    else
      let c := normalize 32 n q
      finite (if num < 0 then -(c.1 : Int) else (c.1 : Int)) c.2

/-- The binary32 value nearest to `num * 2^e`. -/
def roundDyadic (num : Int) (e : Int) : Binary32 :=
  roundRat (num * 2 ^ e.toNat) (2 ^ (-e).toNat)

/-- Rounded addition. -/
def add : Binary32 → Binary32 → Binary32
  | finite m1 e1, finite m2 e2 =>
    roundDyadic (m1 * 2 ^ (e1 - min e1 e2).toNat + m2 * 2 ^ (e2 - min e1 e2).toNat) (min e1 e2)
  | _, _ => nonfinite

/-- Negation (exact). -/
def neg : Binary32 → Binary32
  | finite m e => finite (-m) e
  | nonfinite => nonfinite

/-- Rounded multiplication. -/
def mul : Binary32 → Binary32 → Binary32
  | finite m1 e1, finite m2 e2 => roundDyadic (m1 * m2) (e1 + e2)
  | _, _ => nonfinite

/-- Rounded division; a division by zero is not finite. -/
def div : Binary32 → Binary32 → Binary32
  | finite m1 e1, finite m2 e2 =>
    if m2 = 0 then nonfinite
    else roundRat ((if m2 < 0 then -m1 else m1) * 2 ^ (e1 - e2).toNat)
      (m2.natAbs * 2 ^ (e2 - e1).toNat)
  | _, _ => nonfinite

/-- Rounded square root: with `s` the integer square root of the operand scaled to at
least 52 binary digits, the result is `s` rounded when the root is exact and `s + 1/2`
rounded otherwise (`s` has more digits than a rounding boundary). -/
def sqrt : Binary32 → Binary32
  | finite m e =>
    if m < 0 then nonfinite
    else if m = 0 then finite 0 0
    else
      if isqrt (m.toNat * 2 ^ (2 * max 0 ((53 - e) / 2) + e).toNat)
          * isqrt (m.toNat * 2 ^ (2 * max 0 ((53 - e) / 2) + e).toNat)
          = m.toNat * 2 ^ (2 * max 0 ((53 - e) / 2) + e).toNat then
        roundRat (isqrt (m.toNat * 2 ^ (2 * max 0 ((53 - e) / 2) + e).toNat))
          (2 ^ (max 0 ((53 - e) / 2)).toNat)
      else
        roundRat (2 * isqrt (m.toNat * 2 ^ (2 * max 0 ((53 - e) / 2) + e).toNat) + 1)
          (2 ^ ((max 0 ((53 - e) / 2)).toNat + 1))
  | nonfinite => nonfinite

/-- The comparison `<`; false when an operand is not finite. -/
def lt : Binary32 → Binary32 → Bool
  | finite m1 e1, finite m2 e2 =>
    decide (m1 * 2 ^ (e1 - min e1 e2).toNat < m2 * 2 ^ (e2 - min e1 e2).toNat)
  | _, _ => false

/-- The comparison `!=`; true when an operand is not finite. -/
def ne : Binary32 → Binary32 → Bool
  | finite m1 e1, finite m2 e2 => decide (¬ (m1 = m2 ∧ e1 = e2))
  | _, _ => true

/-- A decimal literal, rounded. -/
def ofScientific (m : Nat) (s : Bool) (e : Nat) : Binary32 :=
  if s = true then roundRat m (10 ^ e) else roundRat (m * 10 ^ e) 1

end Binary32

/-- The arithmetic of IEEE binary32. -/
instance instFloatOpsBinary32 : FloatOps Binary32 where
  add := Binary32.add
  sub a b := Binary32.add a (Binary32.neg b)
  mul := Binary32.mul
  div := Binary32.div
  neg := Binary32.neg
  ofScientific := Binary32.ofScientific
  sqrt := Binary32.sqrt
  lt := Binary32.lt
  ne := Binary32.ne
  lt_irrefl := by
    intro x
    cases x with
    | finite m e => simp [Binary32.lt]
    | nonfinite => rfl

/-! ## Enumerations (lines 21-23) -/

/-- The enum `eDirection {STOP = 0, LEFT, RIGHT, UP, DOWN}`. -/
inductive eDirection where
  | STOP | LEFT | RIGHT | UP | DOWN
  deriving DecidableEq, Repr

/-- The enum `eDifficulty {EASY = 0, MEDIUM, HARD}`. -/
inductive eDifficulty where
  | EASY | MEDIUM | HARD
  deriving DecidableEq, Repr

/-- Integer value of a difficulty (implicit enum-to-int conversion). -/
def eDifficulty.toInt : eDifficulty → Nat
  | .EASY => 0
  | .MEDIUM => 1
  | .HARD => 2

/-- The cast `(eDifficulty)type`; only the values 0, 1, 2 name an enumerator. -/
def eDifficulty.ofInt : Nat → eDifficulty
  | 0 => .EASY
  | 1 => .MEDIUM
  | _ => .HARD

/-! ## struct Vector (lines 88-178) -/

/-- A 2D point or displacement. -/
structure Vector (F : Type) where
  x : F
  y : F
  deriving DecidableEq, Repr

namespace Vector

variable {F : Type} [FloatOps F]

/-- The default constructor `Vector()`: `x = 0.0f; y = 0.0f`. -/
def zero : Vector F := ⟨0.0, 0.0⟩

/-- The static function `Vector::Distance(_this, other)`. -/
def Distance (_this other : Vector F) : F :=
  let x := other.x - _this.x
  let y := other.y - _this.y
  let d := FloatOps.sqrt ((x * x) + (y * y))
  d

/-- The operator `operator+`. -/
def add (v other : Vector F) : Vector F := ⟨v.x + other.x, v.y + other.y⟩

/-- The operator `operator-`. -/
def sub (v other : Vector F) : Vector F := ⟨v.x - other.x, v.y - other.y⟩

/-- The operator `operator*(float s)`. -/
def mul (v : Vector F) (s : F) : Vector F := ⟨v.x * s, v.y * s⟩

/-- The operator `operator/(float s)`: division by zero returns the vector itself. -/
def div (v : Vector F) (s : F) : Vector F :=
  if FloatOps.ne s 0.0 = true then ⟨v.x / s, v.y / s⟩ else v

/-- The operator `operator/=(float s)`: division by zero leaves the vector as it is. -/
def divAssign (v : Vector F) (s : F) : Vector F :=
  if FloatOps.ne s 0.0 = true then ⟨v.x / s, v.y / s⟩ else v

end Vector

/-! ## struct Transform (lines 215-278) -/

/-- A transform holds a position. -/
structure Transform (F : Type) where
  position : Vector F
  deriving DecidableEq, Repr

namespace Transform

variable {F : Type} [FloatOps F]

/-- The method `GenQuadVertices(rad)`: the array `new float[8]` of four corners. -/
def GenQuadVertices (t : Transform F) (rad : F) : List F :=
  [ t.position.x - rad, t.position.y + rad,
    t.position.x + rad, t.position.y + rad,
    t.position.x - rad, t.position.y - rad,
    t.position.x + rad, t.position.y - rad ]

/-- The method `Translate(verts, dX, dY)`: moves the position and, entry by entry,
the vertex array (even indices by `dX`, odd indices by `dY`). -/
def Translate (t : Transform F) (verts : List F) (dX dY : F) : Transform F × List F :=
  ( { position := ⟨t.position.x + dX, t.position.y + dY⟩ },
    verts.mapIdx (fun i v => if i % 2 = 0 then v + dX else v + dY) )

end Transform

/-! ## struct Entity (lines 280-354) -/

/-- A positioned square: transform, vertex array, previous position, scale. -/
structure Entity (F : Type) where
  transform : Transform F
  vertices : List F
  oldPosition : Vector F
  scaleFactor : F
  deriving DecidableEq, Repr

namespace Entity

variable {F : Type} [FloatOps F]

/-- The method `setVertices(scaleF)`. -/
def setVertices (e : Entity F) (scaleF : F) : Entity F :=
  { e with vertices := e.transform.GenQuadVertices scaleF, scaleFactor := scaleF }

/-- The constructor `Entity(const Vector& _position, float scaleF)`; the member
`oldPosition` is default-constructed. -/
def ctor (_position : Vector F) (scaleF : F) : Entity F :=
  setVertices
    { transform := ⟨_position⟩, vertices := [], oldPosition := Vector.zero, scaleFactor := scaleF }
    scaleF

/-- The default constructor `Entity()`: `setVertices()` runs with its default `0.025f`. -/
def default : Entity F :=
  setVertices
    { transform := ⟨Vector.zero⟩, vertices := [], oldPosition := Vector.zero, scaleFactor := 0.025 }
    0.025

/-- The copy constructor `Entity(const Entity& e, float scaleF = 0.025f)`: copies the
transform and the scale, regenerates the vertices, and leaves `oldPosition`
default-constructed. -/
def copy (e : Entity F) : Entity F :=
  setVertices
    { transform := e.transform, vertices := [], oldPosition := Vector.zero,
      scaleFactor := e.scaleFactor }
    e.scaleFactor

/-- The assignment `operator=`: takes the transform and the scale of `other`, regenerates
the vertices, and keeps its own `oldPosition`. -/
def assign (self other : Entity F) : Entity F :=
  setVertices { self with transform := other.transform, scaleFactor := other.scaleFactor }
    other.scaleFactor

/-- The method `SetPosition(const Vector& v, float scaleF)`. -/
def SetPosition (e : Entity F) (v : Vector F) (scaleF : F) : Entity F :=
  setVertices { e with oldPosition := e.transform.position, transform := ⟨v⟩ } scaleF

/-- The method `SetOldPosition(pos)`. -/
def SetOldPosition (e : Entity F) (pos : Vector F) : Entity F :=
  { e with oldPosition := pos }

end Entity

/-! ## Input events -/

/-- The field `event.type`, as far as `HandleInput` distinguishes it. -/
inductive EventType where
  | SDL_QUIT | SDL_KEYDOWN | SDL_KEYUP | OTHER
  deriving DecidableEq, Repr

/-- The field `event.key.keysym.sym`, as far as `HandleInput` distinguishes it. -/
inductive Keycode where
  | SDLK_ESCAPE | SDLK_RETURN | SDLK_TAB | SDLK_SPACE
  | SDLK_LEFT | SDLK_RIGHT | SDLK_UP | SDLK_DOWN
  | SDLK_a | SDLK_d | SDLK_w | SDLK_s
  | OTHER
  deriving DecidableEq, Repr

/-- An `SDL_Event`: the source reads `event.key.keysym.sym` whatever the type is. -/
structure SDL_Event where
  type : EventType
  sym : Keycode
  deriving DecidableEq, Repr

/-- A call of one of the two sound functions. -/
inductive Cue where
  | PlayCollisionSound | PlayGameOverSound
  deriving DecidableEq, Repr

/-! ## Session state (namespace Global, lines 187-213, and the locals of WinMain) -/

/-- The whole simulation state. -/
structure Game (F : Type) where
  appIsRunning : Bool
  gameIsPaused : Bool
  gameOver : Bool
  tailOffset : Vector F
  previousTime : Nat
  currentTime : Nat
  deltaTime : F
  level : Nat
  dir : eDirection
  difficulty : eDifficulty
  step : F
  dX : F
  dY : F
  score : Nat
  highScore : Nat
  tabPressed : Bool
  maxLevelScore : Nat
  fruitSpawnTime : Nat
  fruitLifeSpan : Nat
  startGame : Bool
  /-- The size of `Global::audioSources`. -/
  audioSources : Nat
  snake : Entity F
  fruit : Entity F
  tail : Entity F
  tails : List (Entity F)
  /-- The capacity of the vector `tails`. -/
  tailsCapacity : Nat
  /-- The number of calls of `GenerateRandomPoint` so far. -/
  randCalls : Nat
  /-- The indices of the audio sources passed to `SDL_QueueAudio` so far. -/
  audioQueue : List Nat
  /-- The calls of the sound functions so far. -/
  cues : List Cue
  deriving DecidableEq, Repr

section Functions

variable {F : Type} [FloatOps F]

/-- The global `Global::tailSpacing = 0.070f`; the source never assigns it. -/
def tailSpacing : F := 0.070

/-! ## Sound (lines 394-412) -/

/-- The function `PlayCollisionSound`: queues source 0 when a source is loaded. -/
def PlayCollisionSound (s : Game F) : Game F :=
  { s with
    cues := s.cues ++ [Cue.PlayCollisionSound]
    audioQueue := if s.audioSources ≠ 0 then s.audioQueue ++ [0] else s.audioQueue }

/-- The function `PlayGameOverSound`: queues source 1 when two sources are loaded. -/
def PlayGameOverSound (s : Game F) : Game F :=
  { s with
    cues := s.cues ++ [Cue.PlayGameOverSound]
    audioQueue :=
      if s.audioSources ≠ 0 ∧ s.audioSources > 1 then s.audioQueue ++ [1] else s.audioQueue }

/-! ## Game and utility functions (lines 526-592) -/

/-- The function `HasCollided(_this, other)`; the `int` 2 is converted to `float`. -/
def HasCollided (_this other : Entity F) : Bool :=
  let distance := Vector.Distance _this.transform.position other.transform.position
  if FloatOps.lt distance (other.scaleFactor * 2.0) = true then true else false

/-- The function `GenerateRandomPoint`: the next point of the stream `rand`. -/
def GenerateRandomPoint (rand : Nat → Vector F) (s : Game F) : Vector F × Game F :=
  (rand s.randCalls, { s with randCalls := s.randCalls + 1 })

/-- The function `GameOver`. -/
def GameOver (s : Game F) : Game F :=
  let s := { s with dir := eDirection.STOP }
  let s := { s with gameOver := true }
  let s := if s.score > s.highScore then { s with highScore := s.score } else s
  let s := { s with level := 1 }
  let s := { s with maxLevelScore := 5 }
  if s.startGame = true then PlayGameOverSound s else s

/-- The function `ResetGame`. -/
def ResetGame (s : Game F) : Game F :=
  let s := { s with gameOver := false }
  let s := { s with gameIsPaused := false }
  let s := { s with score := 0 }
  if s.dir ≠ eDirection.DOWN then
    { s with dX := 0.0, dY := s.step, tailOffset := ⟨0.0, -0.07⟩, dir := eDirection.UP }
  else s

/-- The function `SetDifficulty(d)`. -/
def SetDifficulty (d : eDifficulty) (s : Game F) : Game F :=
  let s := { s with difficulty := d }
  if s.difficulty = eDifficulty.EASY then
    { s with step := 0.25, fruitLifeSpan := 15000 }
  else if s.difficulty = eDifficulty.MEDIUM then
    { s with step := 0.45, fruitLifeSpan := 10000 }
  else
    { s with step := 0.65, fruitLifeSpan := 5000 }

/-! ## HandleInput (lines 594-679) -/

/-- The difficulty cycle of the Tab branch: `(Global::difficulty + 1) % 3`, cast back. -/
def cycleDifficulty (d : eDifficulty) : eDifficulty :=
  eDifficulty.ofInt ((d.toInt + 1) % 3)

/-- The first `if`/`else if` chain of the loop body of `HandleInput` (lines 598-623). -/
def handleKeys (event : SDL_Event) (s : Game F) : Game F :=
  if event.type = EventType.SDL_QUIT then
    { s with appIsRunning := false }
  else if event.sym = Keycode.SDLK_ESCAPE then
    { s with appIsRunning := false }
  else if event.type = EventType.SDL_KEYDOWN ∧ event.sym = Keycode.SDLK_RETURN
      ∧ s.gameOver = true then
    let s := { s with dX := 0.0, dY := 0.0 }
    let s := { s with snake := s.snake.SetPosition Vector.zero 0.035 }
    let s := { s with tails := [] }
    let s := { s with dir := eDirection.STOP }
    let s := { s with fruitSpawnTime := s.currentTime }
    ResetGame s
  else if event.type = EventType.SDL_KEYDOWN ∧ event.sym = Keycode.SDLK_TAB
      ∧ s.gameOver = true ∧ s.tabPressed = false then
    let s := { s with difficulty := cycleDifficulty s.difficulty }
    let s := SetDifficulty s.difficulty s
    { s with tabPressed := true }
  else if event.type = EventType.SDL_KEYUP ∧ event.sym = Keycode.SDLK_TAB
      ∧ s.gameOver = true then
    { s with tabPressed := false }
  else s

/-- The second `if` of the loop body of `HandleInput` (lines 625-677); the flag tells
whether the body ends in `break`. -/
def handleMove (event : SDL_Event) (s : Game F) : Game F × Bool :=
  if event.type = EventType.SDL_KEYDOWN then
    if event.sym = Keycode.SDLK_LEFT ∨ event.sym = Keycode.SDLK_a then
      let s := { s with gameIsPaused := false }
      let s := if s.dir ≠ eDirection.RIGHT then
          { s with dX := -s.step, dY := 0.0, tailOffset := ⟨0.07, 0.0⟩, dir := eDirection.LEFT }
        else s
      (s, true)
    else if event.sym = Keycode.SDLK_RIGHT ∨ event.sym = Keycode.SDLK_d then
      let s := { s with gameIsPaused := false }
      let s := if s.dir ≠ eDirection.LEFT then
          { s with dX := s.step, dY := 0.0, tailOffset := ⟨-0.07, 0.0⟩, dir := eDirection.RIGHT }
        else s
      (s, true)
    else if event.sym = Keycode.SDLK_UP ∨ event.sym = Keycode.SDLK_w then
      let s := { s with gameIsPaused := false }
      let s := if s.dir ≠ eDirection.DOWN then
          { s with dX := 0.0, dY := s.step, tailOffset := ⟨0.0, -0.07⟩, dir := eDirection.UP }
        else s
      (s, true)
    else if event.sym = Keycode.SDLK_DOWN ∨ event.sym = Keycode.SDLK_s then
      let s := { s with gameIsPaused := false }
      let s := if s.dir ≠ eDirection.UP then
          { s with dX := 0.0, dY := -s.step, tailOffset := ⟨0.0, 0.07⟩, dir := eDirection.DOWN }
        else s
      (s, true)
    else if event.sym = Keycode.SDLK_SPACE then
      ({ s with dX := 0.0, dY := 0.0, gameIsPaused := true }, true)
    else (s, false)
  else (s, false)

/-- One pass through the body of the `while` loop of `HandleInput` for one polled event. -/
def processEvent (event : SDL_Event) (s : Game F) : Game F × Bool :=
  handleMove event (handleKeys event s)

/-- The function `HandleInput`: polls the queued events in order until the queue is empty
or a body ends in `break`; returns the state and the events left in the queue. -/
def HandleInput : List SDL_Event → Game F → Game F × List SDL_Event
  | [], s => (s, [])
  | event :: queue, s =>
    if (processEvent event s).2 = true then ((processEvent event s).1, queue)
    else HandleInput queue (processEvent event s).1

/-! ## NewLevel and UpdateGame (lines 681-766) -/

/-- The function `NewLevel`. -/
def NewLevel (s : Game F) : Game F :=
  let s := { s with level := (s.level + 1) % UINT_MOD }
  let s := { s with tails := [] }
  let s := { s with snake := s.snake.SetPosition Vector.zero 0.035 }
  let s := { s with dir := eDirection.STOP }
  { s with maxLevelScore := (s.maxLevelScore + (s.level * 5) % UINT_MOD) % UINT_MOD }

/-- The call `tails.push_back(e)`: the new element is copy-constructed from `e`; when the
storage is full (size = capacity) the vector first moves to a larger storage, of capacity
`grow` of the old one, copy-constructing the existing elements (`Entity` declares a copy
constructor and no move constructor). The call `tails.clear()` keeps the capacity. -/
def push_back (grow : Nat → Nat) (e : Entity F) (s : Game F) : Game F :=
  if s.tails.length < s.tailsCapacity then
    { s with tails := s.tails ++ [e.copy] }
  else
    { s with tails := s.tails.map Entity.copy ++ [e.copy], tailsCapacity := grow s.tailsCapacity }

/-- Fruit expiry (lines 698-702). -/
def fruitExpiry (rand : Nat → Vector F) (s : Game F) : Game F :=
  if usub s.currentTime s.fruitSpawnTime > s.fruitLifeSpan then
    let p := GenerateRandomPoint rand s
    let s := { p.2 with fruit := p.2.fruit.SetPosition p.1 0.025 }
    { s with fruitSpawnTime := s.currentTime }
  else s

/-- Head motion (lines 705-706). -/
def headMotion (s : Game F) : Game F :=
  let s := { s with snake := s.snake.SetOldPosition s.snake.transform.position }
  let t := s.snake.transform.Translate s.snake.vertices (s.dX * s.deltaTime) (s.dY * s.deltaTime)
  { s with snake := { s.snake with transform := t.1, vertices := t.2 } }

/-- The repositioning of one tail segment `t` behind the reference point `ref`
(lines 712-715 and 719-722). -/
def follow (ref : Vector F) (t : Entity F) : Entity F :=
  let direction := ref.sub t.transform.position
  let direction := direction.div (Vector.Distance ref t.transform.position)
  let offset := direction.mul tailSpacing
  t.SetPosition (ref.sub offset) 0.030

/-- The tail loop (lines 708-731): `tailLoop (i + 1) s` runs the iterations
`i, i - 1, ..., 0` of `for (int i = tails.size() - 1; i >= 0; i--)`. Iteration 0 follows
the head; iteration `i + 1` follows segment `i`, which this frame has not moved yet, and
then tests the segment just written to `tails[i + 1]` against the head; on a collision
`GameOver` runs and the loop ends (`break`). The indices are in range whenever the loop
starts at `tails.size()`. -/
def tailLoop : Nat → Game F → Game F
  | 0, s => s
  | 1, s =>
    match s.tails[0]? with
    | some t => { s with tails := s.tails.set 0 (follow s.snake.transform.position t) }
    | none => s
  | i + 2, s =>
    match s.tails[i]?, s.tails[i + 1]? with
    | some p, some t =>
      let s := { s with tails := s.tails.set (i + 1) (follow p.transform.position t) }
      if HasCollided s.snake (follow p.transform.position t) = true then GameOver s
      else tailLoop (i + 1) s
    | _, _ => s

/-- The entity `Entity(... + Global::tailOffset, 0.030f)` assigned to `tail` at lines
737-740: placed at the previous position of the head when the chain is empty, of the last
segment otherwise, plus the trailing offset. -/
def newTail (s : Game F) : Entity F :=
  match s.tails.getLast? with
  | none => Entity.ctor (s.snake.oldPosition.add s.tailOffset) 0.030
  | some last => Entity.ctor (last.oldPosition.add s.tailOffset) 0.030

/-- The fruit branch (lines 736-752). -/
def eatFruit (rand : Nat → Vector F) (grow : Nat → Nat) (s : Game F) : Game F :=
  let p := GenerateRandomPoint rand s
  let s : Game F := { p.2 with fruit := p.2.fruit.SetPosition p.1 0.025 }
  let s : Game F := { s with tail := s.tail.assign (newTail s) }
  let s : Game F := push_back grow s.tail s
  let s : Game F := { s with score := (s.score + 1) % UINT_MOD }
  let s : Game F := { s with fruitSpawnTime := s.currentTime }
  let s : Game F := if s.score = s.maxLevelScore then NewLevel s else s
  PlayCollisionSound s

/-- The wall test (line 756). -/
def hitsWall (s : Game F) : Bool :=
  FloatOps.lt s.snake.transform.position.x (-0.999)
    || FloatOps.lt 0.999 s.snake.transform.position.x
    || FloatOps.lt s.snake.transform.position.y (-0.999)
    || FloatOps.lt 0.999 s.snake.transform.position.y

/-- The state after fruit expiry, head motion and the tail loop (lines 698-731). -/
def afterFollow (rand : Nat → Vector F) (s : Game F) : Game F :=
  let s := fruitExpiry rand s
  let s := headMotion s
  tailLoop s.tails.length s

/-- The function `UpdateGame`. -/
def UpdateGame (rand : Nat → Vector F) (grow : Nat → Nat) (s : Game F) : Game F :=
  if s.gameOver = false then
    if s.gameIsPaused = false then
      let s := afterFollow rand s
      if HasCollided s.snake s.fruit = true then eatFruit rand grow s
      else if hitsWall s = true then GameOver s
      else s
    else s
  else s

/-! ## A closed form of the tail loop

These definitions describe the result of the tail loop without running it; the lemma
`tailLoop_closed` proves that the loop computes exactly this. -/

/-- The reference point of segment `j` when the tail loop starts: the position of the head
for segment 0, the position of segment `j - 1` otherwise. -/
def refPoint (s : Game F) : Nat → Vector F
  | 0 => s.snake.transform.position
  | j + 1 =>
    match s.tails[j]? with
    | some p => p.transform.position
    | none => s.snake.transform.position

/-- The tail chain in which every segment of index `i` or more has been repositioned
behind its reference point and the segments below `i` are untouched. -/
def followedFrom (s : Game F) (i : Nat) : List (Entity F) :=
  s.tails.mapIdx (fun j t => if i ≤ j then follow (refPoint s j) t else t)

/-- Whether segment `j`, once repositioned, collides with the head. -/
def hitsHead (s : Game F) (j : Nat) : Bool :=
  match s.tails[j]? with
  | some t => HasCollided s.snake (follow (refPoint s j) t)
  | none => false

/-- The index at which a loop over the segments `k - 1, ..., 0` stops: the highest index
`i` with `1 ≤ i < k` whose repositioned segment collides with the head, if there is one.
Segment 0 is not tested. -/
def stopIndex (s : Game F) : Nat → Option Nat
  | 0 => none
  | 1 => none
  | i + 2 => if hitsHead s (i + 1) = true then some (i + 1) else stopIndex s (i + 1)

/-- The state in which the tail loop starts: after fruit expiry and head motion. -/
def loopStart (rand : Nat → Vector F) (s : Game F) : Game F :=
  headMotion (fruitExpiry rand s)

/-- The facts of float arithmetic used when a segment sits exactly on its reference point
`p`: `p - p` is zero, the computed distance `sqrt(0 * 0 + 0 * 0)` is zero, `0 != 0` is
false, `0 * tailSpacing` is zero and `p - 0` is `p`. They hold in exact arithmetic and, for
every finite `p`, in IEEE binary32. -/
def ZeroDistanceArith (p : Vector F) : Prop :=
  p.x - p.x = 0.0 ∧ p.y - p.y = 0.0
    ∧ FloatOps.sqrt (((0.0 : F) * 0.0) + ((0.0 : F) * 0.0)) = 0.0
    ∧ FloatOps.ne (0.0 : F) 0.0 = false
    ∧ (0.0 : F) * tailSpacing = 0.0
    ∧ p.x - 0.0 = p.x ∧ p.y - 0.0 = p.y

/-- Shape consistency of an entity: its vertex array holds the corners
`(x ± scaleFactor, y ± scaleFactor)` of the square centred at its position, in the order
of `GenQuadVertices`. -/
def Entity.consistent (e : Entity F) : Prop :=
  e.vertices = e.transform.GenQuadVertices e.scaleFactor

/-- The invariant of the level-up test: the threshold is at least 5 and, unless the game
is over, the score is strictly below the threshold. -/
def scoreBelowThreshold (s : Game F) : Prop :=
  5 ≤ s.maxLevelScore ∧ (s.gameOver = true ∨ s.score < s.maxLevelScore)

/-- The state in which the main loop calls `UpdateGame` in the following frame when no
input arrives: the clock fields as set at lines 806-808, `now` being the tick count and
`dt` the frame time computed from it. -/
def nextFrame (dt : F) (now : Nat) (s : Game F) : Game F :=
  { s with currentTime := now, deltaTime := dt, previousTime := now }

/-! ## Start-up (lines 187-213 and 789-799) -/

/-- The globals with their initialisers and the locals of `WinMain` as constructed at
lines 789-792; `ticks` is the value of `SDL_GetTicks()` and `sources` the number of
audio files that were loaded. -/
def Game.init (rand : Nat → Vector F) (ticks sources : Nat) : Game F :=
  { appIsRunning := true, gameIsPaused := false, gameOver := false,
    tailOffset := Vector.zero, previousTime := ticks, currentTime := 0, deltaTime := 0.0,
    level := 1, dir := eDirection.UP, difficulty := eDifficulty.EASY, step := 0.0,
    dX := 0.0, dY := 0.0, score := 0, highScore := 0, tabPressed := false,
    maxLevelScore := 5, fruitSpawnTime := 0, fruitLifeSpan := 15000, startGame := false,
    audioSources := sources,
    snake := Entity.ctor ⟨0.0, 0.0⟩ 0.035, fruit := Entity.ctor (rand 0) 0.025,
    tail := Entity.default, tails := [], tailsCapacity := 0,
    randCalls := 1, audioQueue := [], cues := [] }

/-- The state on entry to the main loop (lines 795-799): `SetDifficulty(EASY)`, then
`GameOver()`, then `startGame = true`. -/
def Game.start (rand : Nat → Vector F) (ticks sources : Nat) : Game F :=
  { GameOver (SetDifficulty eDifficulty.EASY (Game.init rand ticks sources)) with
    startGame := true }

end Functions

/-! ## Concrete scenarios -/

/-- A constant stream of random points, all equal to `(0.5, 0.5)`. -/
def constRand : Nat → Vector Fixed := fun _ => ⟨0.5, 0.5⟩

/-- A growth policy for the vector storage: doubling (at least one slot). -/
def doubling : Nat → Nat := fun c => if c = 0 then 1 else 2 * c

/-- A running game: the start-up state after the key-down events Enter and Right, in the
frame that begins 1000 ms later and one second after the previous frame. The head is at the
origin moving right at 0.25, the fruit is at (0.5, 0.5). -/
def playing : Game Fixed :=
  { (HandleInput [⟨EventType.SDL_KEYDOWN, Keycode.SDLK_RETURN⟩,
        ⟨EventType.SDL_KEYDOWN, Keycode.SDLK_RIGHT⟩] (Game.start constRand 0 2)).1 with
    deltaTime := 1.0, currentTime := 1000, previousTime := 1000 }

/-- The running game with the fruit at (0.25, 0), where the head arrives in this frame. -/
def fruitAhead : Game Fixed :=
  { playing with fruit := Entity.ctor ⟨0.25, 0.0⟩ 0.025 }

/-- The frame after `fruitAhead`: one tail segment in a storage of capacity one, and
the fruit at (0.5, 0), where the head arrives in this frame. -/
def secondFruit : Game Fixed :=
  { UpdateGame constRand doubling fruitAhead with fruit := Entity.ctor ⟨0.5, 0.0⟩ 0.025 }

/-- A tail segment of the scenarios: scale 0.030 at the given position. -/
def segmentAt (x y : Fixed) : Entity Fixed := Entity.ctor ⟨x, y⟩ 0.030

/-- The running game at rest for one frame (`deltaTime` 0, two frames in one millisecond)
with the head at the origin and three segments at (0.05, 0), (-0.3, 0) and (-0.6, 0):
segment 1, repositioned behind segment 0, lands on the head. -/
def coiled : Game Fixed :=
  { playing with
    deltaTime := 0.0
    tails := [segmentAt 0.05 0.0, segmentAt (-0.3) 0.0, segmentAt (-0.6) 0.0]
    tailsCapacity := 4 }

/-- The running game at rest for one frame with a single segment lying on the head. -/
def onHead : Game Fixed :=
  { playing with deltaTime := 0.0, tails := [segmentAt 0.0 0.0], tailsCapacity := 1 }

/-- The running game with three segments trailing the head on a diagonal, at (-0.3, -0.4),
(-0.6, -0.8) and (-0.9, -1.2) before the frame. -/
def diagonal : Game Fixed :=
  { playing with
    deltaTime := 0.0
    tails := [segmentAt (-0.3) (-0.4), segmentAt (-0.6) (-0.8), segmentAt (-0.9) (-1.2)]
    tailsCapacity := 4 }

/-- The running game at rest for one frame with the head at the origin and three segments
at (0.5, 0), (0, 0) and (0.7, 0): segment 1 lies exactly on the head. -/
def headOnSegmentOne : Game Fixed :=
  { playing with
    deltaTime := 0.0
    tails := [segmentAt 0.5 0.0, segmentAt 0.0 0.0, segmentAt 0.7 0.0]
    tailsCapacity := 4 }

/-- The running game at rest for one frame with head, fruit, segment 0 and segment 1 all
at the origin, segment 2 at (0.7, 0), and score 4 of the threshold 5. -/
def pileUp : Game Fixed :=
  { playing with
    deltaTime := 0.0
    score := 4
    fruit := Entity.ctor ⟨0.0, 0.0⟩ 0.025
    tails := [segmentAt 0.0 0.0, segmentAt 0.0 0.0, segmentAt 0.7 0.0]
    tailsCapacity := 4 }

/-- The constant stream of random points (0.5, 0.5) in binary32. -/
def constRand32 : Nat → Vector Binary32 := fun _ => ⟨0.5, 0.5⟩

/-- The running game `playing` in binary32 arithmetic. -/
def playing32 : Game Binary32 :=
  { (HandleInput [⟨EventType.SDL_KEYDOWN, Keycode.SDLK_RETURN⟩,
        ⟨EventType.SDL_KEYDOWN, Keycode.SDLK_RIGHT⟩] (Game.start constRand32 0 2)).1 with
    deltaTime := 1.0, currentTime := 1000, previousTime := 1000 }

/-- The scenario `secondFruit` in binary32 arithmetic: the frame after the first fruit
was eaten at (0.25, 0); the head moves on to (0.5, 0), followed by one segment. -/
def secondFruit32 : Game Binary32 :=
  { UpdateGame constRand32 doubling { playing32 with fruit := Entity.ctor ⟨0.25, 0.0⟩ 0.025 } with
    fruit := Entity.ctor ⟨0.5, 0.0⟩ 0.025 }

/-- A running game with score 3 and high score 3 whose head moves in this frame from
(-0.25, 0) to the origin, where the fruit lies, while its three segments are at (0.05, 0),
(-0.3, 0) and (-0.6, 0): segment 1, repositioned behind segment 0, lands on the head. -/
def bite : Game Fixed :=
  { playing with
    snake := Entity.ctor ⟨-0.25, 0.0⟩ 0.035
    fruit := Entity.ctor ⟨0.0, 0.0⟩ 0.025
    score := 3
    highScore := 3
    tails := [segmentAt 0.05 0.0, segmentAt (-0.3) 0.0, segmentAt (-0.6) 0.0]
    tailsCapacity := 4 }

/-- The scenario `bite` in binary32 arithmetic. -/
def bite32 : Game Binary32 :=
  { playing32 with
    snake := Entity.ctor ⟨-0.25, 0.0⟩ 0.035
    fruit := Entity.ctor ⟨0.0, 0.0⟩ 0.025
    score := 3
    highScore := 3
    tails := [Entity.ctor ⟨0.05, 0.0⟩ 0.030, Entity.ctor ⟨-0.3, 0.0⟩ 0.030,
      Entity.ctor ⟨-0.6, 0.0⟩ 0.030]
    tailsCapacity := 4 }

/-! ## Auxiliary lemmas -/

section Lemmas

variable {F : Type} [FloatOps F]

/-- The tail loop changes the tail chain only, or the tail chain and then what `GameOver`
changes. -/
theorem tailLoop_cases (n : Nat) (s : Game F) :
    ∃ ts, tailLoop n s = { s with tails := ts } ∨ tailLoop n s = GameOver { s with tails := ts } := by
  induction n generalizing s with
  | zero => exact ⟨s.tails, Or.inl rfl⟩
  | succ n ih =>
    cases n with
    | zero =>
      unfold tailLoop
      cases h : s.tails[0]? with
      | none => exact ⟨s.tails, Or.inl rfl⟩
      | some t => exact ⟨_, Or.inl rfl⟩
    | succ i =>
      unfold tailLoop
      cases hp : s.tails[i]? with
      | none => exact ⟨s.tails, Or.inl rfl⟩
      | some p =>
        cases ht : s.tails[i + 1]? with
        | none => exact ⟨s.tails, Or.inl rfl⟩
        | some t =>
          simp only []
          split
          · exact ⟨_, Or.inr rfl⟩
          · obtain ⟨ts, h⟩ := ih { s with tails := s.tails.set (i + 1) (follow p.transform.position t) }
            exact ⟨ts, h⟩

/-- Below `i` the chain `followedFrom s i` is the original one. -/
theorem followedFrom_below (s : Game F) (i j : Nat) (h : j < i) :
    (followedFrom s i)[j]? = s.tails[j]? := by
  unfold followedFrom
  rw [List.getElem?_mapIdx]
  cases s.tails[j]? with
  | none => rfl
  | some t => simp [Nat.not_le.mpr h]

/-- From `i` on the chain `followedFrom s i` holds the repositioned segments. -/
theorem followedFrom_above (s : Game F) (i j : Nat) (h : i ≤ j) :
    (followedFrom s i)[j]? = (s.tails[j]?).map (follow (refPoint s j)) := by
  unfold followedFrom
  rw [List.getElem?_mapIdx]
  cases s.tails[j]? with
  | none => rfl
  | some t => simp [h]

/-- Repositioning nothing gives the original chain. -/
theorem followedFrom_length (s : Game F) : followedFrom s s.tails.length = s.tails := by
  apply List.ext_getElem?
  intro j
  by_cases h : j < s.tails.length
  · exact followedFrom_below s _ j h
  · rw [followedFrom_above s _ j (Nat.le_of_not_lt h),
      List.getElem?_eq_none (Nat.le_of_not_lt h)]
    rfl

/-- Writing the repositioned segment `j` into `followedFrom s (j + 1)` gives
`followedFrom s j`. -/
theorem followedFrom_set (s : Game F) (j : Nat) (t : Entity F) (h : s.tails[j]? = some t) :
    (followedFrom s (j + 1)).set j (follow (refPoint s j) t) = followedFrom s j := by
  apply List.ext_getElem?
  intro k
  have hlen : j < (followedFrom s (j + 1)).length := by
    unfold followedFrom
    rw [List.length_mapIdx]
    exact (List.getElem?_eq_some.mp h).1
  rw [List.getElem?_set]
  by_cases hjk : j = k
  · subst hjk
    rw [if_pos rfl, if_pos hlen, followedFrom_above s j j (Nat.le_refl j), h]
    rfl
  · rw [if_neg hjk]
    by_cases hlt : k < j
    · rw [followedFrom_below s _ k (Nat.lt_succ_of_lt hlt), followedFrom_below s _ k hlt]
    · have h1 : j + 1 ≤ k := by omega
      rw [followedFrom_above s _ k h1, followedFrom_above s _ k (by omega)]

/-- The tail loop computes the closed form: started at `k` on the chain in which the
segments from `k` on are already repositioned, it ends in `GameOver` on the chain
repositioned from the stop index on, or, without a collision, on the chain repositioned
throughout. -/
theorem tailLoop_closed_aux (s : Game F) (k : Nat) (hk : k ≤ s.tails.length) :
    tailLoop k { s with tails := followedFrom s k } =
      match stopIndex s k with
      | some i => GameOver { s with tails := followedFrom s i }
      | none => { s with tails := followedFrom s 0 } := by
  induction k with
  | zero => rfl
  | succ k ih =>
    cases k with
    | zero =>
      obtain ⟨t, ht⟩ : ∃ t, s.tails[0]? = some t := by
        cases h : s.tails[0]? with
        | some t => exact ⟨t, rfl⟩
        | none => rw [List.getElem?_eq_none_iff] at h; omega
      unfold tailLoop stopIndex
      simp only [followedFrom_below s 1 0 (by omega), ht]
      have := followedFrom_set s 0 t ht
      simp only [refPoint] at this
      rw [this]
    | succ i =>
      obtain ⟨p, hp⟩ : ∃ p, s.tails[i]? = some p := by
        cases h : s.tails[i]? with
        | some t => exact ⟨t, rfl⟩
        | none => rw [List.getElem?_eq_none_iff] at h; omega
      obtain ⟨t, ht⟩ : ∃ t, s.tails[i + 1]? = some t := by
        cases h : s.tails[i + 1]? with
        | some t => exact ⟨t, rfl⟩
        | none => rw [List.getElem?_eq_none_iff] at h; omega
      have href : refPoint s (i + 1) = p.transform.position := by
        simp only [refPoint, hp]
      have hset := followedFrom_set s (i + 1) t ht
      rw [href] at hset
      have hhit : hitsHead s (i + 1) = HasCollided s.snake (follow p.transform.position t) := by
        simp only [hitsHead, ht, href]
      unfold tailLoop stopIndex
      simp only [followedFrom_below s (i + 2) i (by omega),
        followedFrom_below s (i + 2) (i + 1) (by omega), hp, ht, hset, hhit]
      by_cases hc : HasCollided s.snake (follow p.transform.position t) = true
      · simp only [hc, if_true]
      · simp only [hc, if_false]
        exact ih (by omega)

/-- The tail loop of a frame, started at `tails.size()`, computes the closed form. -/
theorem tailLoop_closed (s : Game F) :
    tailLoop s.tails.length s =
      match stopIndex s s.tails.length with
      | some i => GameOver { s with tails := followedFrom s i }
      | none => { s with tails := followedFrom s 0 } := by
  have h := tailLoop_closed_aux s s.tails.length (Nat.le_refl _)
  rw [followedFrom_length] at h
  exact h

/-- A stop index is at least 1, below the start, and its repositioned segment collides
with the head, while no repositioned segment above it does. -/
theorem stopIndex_some (s : Game F) (k i : Nat) (h : stopIndex s k = some i) :
    1 ≤ i ∧ i < k ∧ hitsHead s i = true ∧ ∀ j, i < j → j < k → hitsHead s j = false := by
  induction k with
  | zero => simp [stopIndex] at h
  | succ k ih =>
    cases k with
    | zero => simp [stopIndex] at h
    | succ n =>
      unfold stopIndex at h
      by_cases hc : hitsHead s (n + 1) = true
      · rw [if_pos hc] at h
        cases h
        exact ⟨by omega, by omega, hc, fun j h1 h2 => by omega⟩
      · rw [if_neg hc] at h
        obtain ⟨h1, h2, h3, h4⟩ := ih h
        refine ⟨h1, by omega, h3, ?_⟩
        intro j hj1 hj2
        by_cases hj : j = n + 1
        · subst hj
          simpa using hc
        · exact h4 j hj1 (by omega)

/-- Without a stop index no repositioned segment of index 1 or more collides with the
head. -/
theorem stopIndex_none (s : Game F) (k : Nat) (h : stopIndex s k = none) :
    ∀ j, 1 ≤ j → j < k → hitsHead s j = false := by
  induction k with
  | zero => intro j _ h2; omega
  | succ k ih =>
    cases k with
    | zero => intro j h1 h2; omega
    | succ n =>
      unfold stopIndex at h
      by_cases hc : hitsHead s (n + 1) = true
      · rw [if_pos hc] at h
        cases h
      · rw [if_neg hc] at h
        intro j hj1 hj2
        by_cases hj : j = n + 1
        · subst hj
          simpa using hc
        · exact ih h j hj1 (by omega)

/-- The function `GameOver` as one record update. -/
theorem GameOver_eq (s : Game F) :
    GameOver s =
      { s with
        dir := eDirection.STOP, gameOver := true, highScore := max s.highScore s.score,
        level := 1, maxLevelScore := 5,
        cues := if s.startGame = true then s.cues ++ [Cue.PlayGameOverSound] else s.cues,
        audioQueue :=
          if s.startGame = true ∧ s.audioSources ≠ 0 ∧ s.audioSources > 1
          then s.audioQueue ++ [1] else s.audioQueue } := by
  unfold GameOver PlayGameOverSound
  by_cases h1 : s.score > s.highScore <;> by_cases h2 : s.startGame = true
  · simp [h1, h2, max_eq_right (Nat.le_of_lt h1)]
  · simp [h1, h2, max_eq_right (Nat.le_of_lt h1)]
  · simp [h1, h2, max_eq_left (Nat.le_of_not_lt h1)]
  · simp [h1, h2, max_eq_left (Nat.le_of_not_lt h1)]

/-- Fruit expiry as one record update. -/
theorem fruitExpiry_eq (rand : Nat → Vector F) (s : Game F) :
    fruitExpiry rand s =
      if usub s.currentTime s.fruitSpawnTime > s.fruitLifeSpan then
        { s with
          fruit := s.fruit.SetPosition (rand s.randCalls) 0.025,
          randCalls := s.randCalls + 1, fruitSpawnTime := s.currentTime }
      else s := by
  unfold fruitExpiry GenerateRandomPoint
  split <;> rfl

/-- The state before the fruit test is the state after fruit expiry and head motion with
another tail chain, possibly followed by `GameOver`. -/
theorem afterFollow_cases (rand : Nat → Vector F) (s : Game F) :
    ∃ ts, afterFollow rand s = { headMotion (fruitExpiry rand s) with tails := ts }
      ∨ afterFollow rand s = GameOver { headMotion (fruitExpiry rand s) with tails := ts } := by
  unfold afterFollow
  exact tailLoop_cases _ _

/-- The head before the fruit test: translated by the velocity times the frame time, its
previous position being the position at the start of the frame. -/
theorem afterFollow_snake (rand : Nat → Vector F) (s : Game F) :
    (afterFollow rand s).snake.transform.position
        = ⟨s.snake.transform.position.x + s.dX * s.deltaTime,
           s.snake.transform.position.y + s.dY * s.deltaTime⟩
      ∧ (afterFollow rand s).snake.oldPosition = s.snake.transform.position := by
  obtain ⟨ts, h | h⟩ := afterFollow_cases rand s
  · rw [h, fruitExpiry_eq]
    split <;> simp [headMotion, Transform.Translate, Entity.SetOldPosition]
  · rw [h, GameOver_eq, fruitExpiry_eq]
    split <;> simp [headMotion, Transform.Translate, Entity.SetOldPosition]

/-- The counters before the fruit test: score and clock are those of the start of the
frame; the high score is the old one or, after `GameOver`, the larger of it and the score. -/
theorem afterFollow_counters (rand : Nat → Vector F) (s : Game F) :
    (afterFollow rand s).score = s.score
      ∧ (afterFollow rand s).currentTime = s.currentTime
      ∧ ((afterFollow rand s).highScore = s.highScore
          ∨ (afterFollow rand s).highScore = max s.highScore s.score) := by
  obtain ⟨ts, h | h⟩ := afterFollow_cases rand s
  · rw [h, fruitExpiry_eq]
    split <;> simp [headMotion]
  · rw [h, GameOver_eq, fruitExpiry_eq]
    split <;> simp [headMotion]

/-- A frame of a running game in which the head meets the fruit is the fruit branch. -/
theorem UpdateGame_eat (rand : Nat → Vector F) (grow : Nat → Nat) (s : Game F)
    (hover : s.gameOver = false) (hpause : s.gameIsPaused = false)
    (hfruit : HasCollided (afterFollow rand s).snake (afterFollow rand s).fruit = true) :
    UpdateGame rand grow s = eatFruit rand grow (afterFollow rand s) := by
  unfold UpdateGame
  simp [hover, hpause, hfruit]

/-- A frame of a running game in which the head misses the fruit ends with the wall test. -/
theorem UpdateGame_miss (rand : Nat → Vector F) (grow : Nat → Nat) (s : Game F)
    (hover : s.gameOver = false) (hpause : s.gameIsPaused = false)
    (hfruit : HasCollided (afterFollow rand s).snake (afterFollow rand s).fruit = false) :
    UpdateGame rand grow s =
      if hitsWall (afterFollow rand s) = true then GameOver (afterFollow rand s)
      else afterFollow rand s := by
  unfold UpdateGame
  simp [hover, hpause, hfruit]

/-- The fruit branch leaves the game-over flag as it is. -/
theorem eatFruit_gameOver (rand : Nat → Vector F) (grow : Nat → Nat) (s : Game F) :
    (eatFruit rand grow s).gameOver = s.gameOver := by
  unfold eatFruit PlayCollisionSound NewLevel push_back GenerateRandomPoint
  simp only []
  split <;> split <;> rfl

/-- Copying the entity that was assigned from a freshly constructed one gives the
freshly constructed one. -/
theorem copy_assign_ctor (t : Entity F) (p : Vector F) (c : F) :
    (t.assign (Entity.ctor p c)).copy = Entity.ctor p c := rfl

/-- The new tail entity is a freshly constructed one of scale 0.030. -/
theorem newTail_eq_ctor (s : Game F) :
    ∃ p : Vector F, newTail s = Entity.ctor p 0.030 := by
  unfold newTail
  cases s.tails.getLast? with
  | none => exact ⟨_, rfl⟩
  | some last => exact ⟨_, rfl⟩

/-- What the fruit branch does to score, spawn time, fruit and the count of random points. -/
theorem eatFruit_basic (rand : Nat → Vector F) (grow : Nat → Nat) (s : Game F) :
    (eatFruit rand grow s).score = (s.score + 1) % UINT_MOD
      ∧ (eatFruit rand grow s).fruitSpawnTime = s.currentTime
      ∧ (eatFruit rand grow s).fruit = s.fruit.SetPosition (rand s.randCalls) 0.025
      ∧ (eatFruit rand grow s).randCalls = s.randCalls + 1 := by
  unfold eatFruit PlayCollisionSound NewLevel push_back GenerateRandomPoint
  simp only []
  split <;> split <;> exact ⟨rfl, rfl, rfl, rfl⟩

/-- The fruit branch without level-up: the chain is extended by `push_back`, level and
threshold stay. -/
theorem eatFruit_grow (rand : Nat → Vector F) (grow : Nat → Nat) (s : Game F)
    (h : (s.score + 1) % UINT_MOD ≠ s.maxLevelScore) :
    (eatFruit rand grow s).tails
        = (if s.tails.length < s.tailsCapacity then s.tails else s.tails.map Entity.copy)
            ++ [newTail s]
      ∧ (eatFruit rand grow s).level = s.level
      ∧ (eatFruit rand grow s).maxLevelScore = s.maxLevelScore
      ∧ (eatFruit rand grow s).snake = s.snake
      ∧ (eatFruit rand grow s).dir = s.dir := by
  obtain ⟨p, hp⟩ := newTail_eq_ctor s
  have hp2 : newTail { s with fruit := s.fruit.SetPosition (rand s.randCalls) 0.025,
                              randCalls := s.randCalls + 1 } = Entity.ctor p 0.030 := hp
  unfold eatFruit PlayCollisionSound push_back GenerateRandomPoint
  simp only [hp2, hp, copy_assign_ctor]
  by_cases hc : s.tails.length < s.tailsCapacity
  · simp only [hc, if_true]
    rw [if_neg h]
    exact ⟨rfl, rfl, rfl, rfl, rfl⟩
  · simp only [hc, if_false]
    rw [if_neg h]
    exact ⟨rfl, rfl, rfl, rfl, rfl⟩

/-- The fruit branch with level-up: `NewLevel` runs. -/
theorem eatFruit_levelUp (rand : Nat → Vector F) (grow : Nat → Nat) (s : Game F)
    (h : (s.score + 1) % UINT_MOD = s.maxLevelScore) :
    (eatFruit rand grow s).level = (s.level + 1) % UINT_MOD
      ∧ (eatFruit rand grow s).maxLevelScore
          = (s.maxLevelScore + ((s.level + 1) % UINT_MOD * 5) % UINT_MOD) % UINT_MOD
      ∧ (eatFruit rand grow s).tails = []
      ∧ (eatFruit rand grow s).snake = s.snake.SetPosition Vector.zero 0.035
      ∧ (eatFruit rand grow s).dir = eDirection.STOP := by
  unfold eatFruit PlayCollisionSound push_back GenerateRandomPoint
  by_cases hc : s.tails.length < s.tailsCapacity
  · simp only [hc, if_true]
    rw [if_pos h]
    exact ⟨rfl, rfl, rfl, rfl, rfl⟩
  · simp only [hc, if_false]
    rw [if_pos h]
    exact ⟨rfl, rfl, rfl, rfl, rfl⟩

/-- Fruit expiry and head motion leave the tail chain alone. -/
theorem loopStart_tails (rand : Nat → Vector F) (s : Game F) :
    (loopStart rand s).tails = s.tails := by
  unfold loopStart
  rw [fruitExpiry_eq]
  split <;> rfl

/-- The state before the fruit test in closed form. -/
theorem afterFollow_closed (rand : Nat → Vector F) (s : Game F) :
    afterFollow rand s =
      match stopIndex (loopStart rand s) s.tails.length with
      | some i => GameOver { loopStart rand s with tails := followedFrom (loopStart rand s) i }
      | none => { loopStart rand s with tails := followedFrom (loopStart rand s) 0 } := by
  have h := tailLoop_closed (loopStart rand s)
  rw [loopStart_tails] at h
  rw [← h]
  show tailLoop (loopStart rand s).tails.length (loopStart rand s) = _
  rw [loopStart_tails]

/-- The tail chain before the fruit test: repositioned from the stop index on. -/
theorem afterFollow_tails (rand : Nat → Vector F) (s : Game F) :
    (afterFollow rand s).tails =
      match stopIndex (loopStart rand s) s.tails.length with
      | some i => followedFrom (loopStart rand s) i
      | none => followedFrom (loopStart rand s) 0 := by
  rw [afterFollow_closed]
  cases stopIndex (loopStart rand s) s.tails.length with
  | none => rfl
  | some i => simp only [GameOver_eq]

/-- A segment that the tail loop reaches is repositioned behind its reference point. -/
theorem afterFollow_processed (rand : Nat → Vector F) (s : Game F) (j : Nat)
    (h : ∀ i, stopIndex (loopStart rand s) s.tails.length = some i → i ≤ j) :
    (afterFollow rand s).tails[j]?
      = (s.tails[j]?).map (follow (refPoint (loopStart rand s) j)) := by
  rw [afterFollow_tails]
  cases hst : stopIndex (loopStart rand s) s.tails.length with
  | none => simp only []; rw [followedFrom_above _ 0 j (Nat.zero_le j), loopStart_tails]
  | some i => simp only []; rw [followedFrom_above _ i j (h i hst), loopStart_tails]

/-- A segment that the tail loop does not reach is untouched. -/
theorem afterFollow_kept (rand : Nat → Vector F) (s : Game F) (i j : Nat)
    (hst : stopIndex (loopStart rand s) s.tails.length = some i) (h : j < i) :
    (afterFollow rand s).tails[j]? = s.tails[j]? := by
  rw [afterFollow_tails, hst]
  simp only []
  rw [followedFrom_below _ i j h, loopStart_tails]

/-- The index at which the loop stops is the highest index, 1 or more, whose repositioned
segment collides with the head. -/
theorem stopIndex_of_hit (s : Game F) (k i : Nat) (h1 : 1 ≤ i) (h2 : i < k)
    (hhit : hitsHead s i = true) (habove : ∀ j, i < j → j < k → hitsHead s j = false) :
    stopIndex s k = some i := by
  cases hst : stopIndex s k with
  | none =>
    have := stopIndex_none s k hst i h1 h2
    rw [hhit] at this
    cases this
  | some i2 =>
    obtain ⟨a1, a2, a3, a4⟩ := stopIndex_some s k i2 hst
    by_cases hlt : i < i2
    · have := habove i2 hlt a2
      rw [a3] at this
      cases this
    · by_cases hgt : i2 < i
      · have := a4 i hgt h2
        rw [hhit] at this
        cases this
      · have : i2 = i := by omega
        rw [this]

/-- If no repositioned segment of index 1 or more collides with the head, the loop does
not stop. -/
theorem stopIndex_of_no_hit (s : Game F) (k : Nat)
    (h : ∀ j, 1 ≤ j → j < k → hitsHead s j = false) : stopIndex s k = none := by
  cases hst : stopIndex s k with
  | none => rfl
  | some i =>
    obtain ⟨a1, a2, a3, -⟩ := stopIndex_some s k i hst
    have := h i a1 a2
    rw [a3] at this
    cases this

/-- A segment on its reference point: the computed distance is zero and the segment stays
where it is. -/
theorem follow_on_reference (ref : Vector F) (t : Entity F)
    (hpos : t.transform.position = ref) (ha : ZeroDistanceArith ref) :
    FloatOps.ne (Vector.Distance ref t.transform.position) 0.0 = false
      ∧ (follow ref t).transform.position = t.transform.position := by
  obtain ⟨h1, h2, h3, h4, h5, h6, h7⟩ := ha
  have hd : Vector.Distance ref t.transform.position = 0.0 := by
    rw [hpos]
    simp only [Vector.Distance, h1, h2, h3]
  refine ⟨by rw [hd, h4], ?_⟩
  simp only [follow, Entity.SetPosition, Entity.setVertices, hd, Vector.div, h4]
  rw [hpos]
  simp only [Vector.sub, Vector.mul, h1, h2, h5, h6, h7, Bool.false_eq_true, if_false]

/-- Fruit expiry and head motion leave the flags alone. -/
theorem loopStart_flags (rand : Nat → Vector F) (s : Game F) :
    (loopStart rand s).gameOver = s.gameOver
      ∧ (loopStart rand s).gameIsPaused = s.gameIsPaused := by
  unfold loopStart
  rw [fruitExpiry_eq]
  split <;> exact ⟨rfl, rfl⟩

/-- Once the tail loop has set the game-over flag, the frame ends with it set. -/
theorem UpdateGame_gameOver_of_loop (rand : Nat → Vector F) (grow : Nat → Nat) (s : Game F)
    (hover : s.gameOver = false) (hpause : s.gameIsPaused = false)
    (h : (afterFollow rand s).gameOver = true) : (UpdateGame rand grow s).gameOver = true := by
  cases hf : HasCollided (afterFollow rand s).snake (afterFollow rand s).fruit with
  | true => rw [UpdateGame_eat rand grow s hover hpause hf, eatFruit_gameOver, h]
  | false =>
    rw [UpdateGame_miss rand grow s hover hpause hf]
    split
    · rw [GameOver_eq]
    · exact h

/-- The tail loop keeps the number of segments. -/
theorem afterFollow_length (rand : Nat → Vector F) (s : Game F) :
    (afterFollow rand s).tails.length = s.tails.length := by
  rw [afterFollow_tails]
  cases stopIndex (loopStart rand s) s.tails.length <;>
    simp only [followedFrom, List.length_mapIdx, loopStart_tails]

/-- A segment on its reference point is at the same place after the tail loop, whether the
loop reaches it or not. -/
theorem afterFollow_on_reference (rand : Nat → Vector F) (s : Game F) (j : Nat) (t : Entity F)
    (ht : s.tails[j]? = some t)
    (hpos : t.transform.position = refPoint (loopStart rand s) j)
    (ha : ZeroDistanceArith (refPoint (loopStart rand s) j)) :
    ((afterFollow rand s).tails[j]?).map (fun e => e.transform.position)
      = some t.transform.position := by
  obtain ⟨-, h2⟩ := follow_on_reference _ t hpos ha
  cases hst : stopIndex (loopStart rand s) s.tails.length with
  | none =>
    rw [afterFollow_processed rand s j (by intro i hi; rw [hst] at hi; cases hi), ht]
    simp [h2]
  | some i =>
    by_cases hji : j < i
    · rw [afterFollow_kept rand s i j hst hji, ht]
      rfl
    · rw [afterFollow_processed rand s j
        (by intro i2 hi; rw [hst] at hi; cases hi; omega), ht]
      simp [h2]

/-- A frame without level-up leaves every segment where the tail loop put it. -/
theorem UpdateGame_segment_position (rand : Nat → Vector F) (grow : Nat → Nat) (s : Game F)
    (hover : s.gameOver = false) (hpause : s.gameIsPaused = false)
    (hlevel : ¬ (HasCollided (afterFollow rand s).snake (afterFollow rand s).fruit = true
      ∧ (s.score + 1) % UINT_MOD = (afterFollow rand s).maxLevelScore))
    (j : Nat) (hj : j < s.tails.length) :
    ((UpdateGame rand grow s).tails[j]?).map (fun e => e.transform.position)
      = ((afterFollow rand s).tails[j]?).map (fun e => e.transform.position) := by
  have hlen := afterFollow_length rand s
  cases hf : HasCollided (afterFollow rand s).snake (afterFollow rand s).fruit with
  | true =>
    have hne : ((afterFollow rand s).score + 1) % UINT_MOD ≠ (afterFollow rand s).maxLevelScore := by
      rw [(afterFollow_counters rand s).1]
      exact fun h => hlevel ⟨hf, h⟩
    rw [UpdateGame_eat rand grow s hover hpause hf,
      (eatFruit_grow rand grow (afterFollow rand s) hne).1]
    split
    · rw [List.getElem?_append_left (by omega)]
    · rw [List.getElem?_append_left (by rw [List.length_map]; omega), List.getElem?_map]
      cases (afterFollow rand s).tails[j]? with
      | none => rfl
      | some e => rfl
  | false =>
    rw [UpdateGame_miss rand grow s hover hpause hf]
    split
    · rw [GameOver_eq]
    · rfl

/-- The session fields before the fruit test: those of the start of the frame, or those
left by `GameOver` when the tail loop stopped on a collision. -/
theorem afterFollow_session (rand : Nat → Vector F) (s : Game F) :
    (afterFollow rand s).score = s.score ∧ (afterFollow rand s).tailOffset = s.tailOffset
      ∧ (((afterFollow rand s).gameOver = s.gameOver ∧ (afterFollow rand s).level = s.level
          ∧ (afterFollow rand s).maxLevelScore = s.maxLevelScore
          ∧ (afterFollow rand s).highScore = s.highScore)
        ∨ ((afterFollow rand s).gameOver = true ∧ (afterFollow rand s).level = 1
          ∧ (afterFollow rand s).maxLevelScore = 5
          ∧ (afterFollow rand s).highScore = max s.highScore s.score)) := by
  obtain ⟨ts, h | h⟩ := afterFollow_cases rand s
  · rw [h, fruitExpiry_eq]
    split <;> simp [headMotion]
  · rw [h, GameOver_eq, fruitExpiry_eq]
    split <;> simp [headMotion]

/-- The fruit branch leaves the high score as it is. -/
theorem eatFruit_highScore (rand : Nat → Vector F) (grow : Nat → Nat) (s : Game F) :
    (eatFruit rand grow s).highScore = s.highScore := by
  unfold eatFruit PlayCollisionSound NewLevel push_back GenerateRandomPoint
  simp only []
  split <;> split <;> rfl

/-- The last segment after the tail loop is the repositioned last segment: its previous
position is its position before the frame. -/
theorem afterFollow_getLast (rand : Nat → Vector F) (s : Game F) (t : Entity F)
    (ht : s.tails.getLast? = some t) :
    (afterFollow rand s).tails.getLast?
      = some (follow (refPoint (loopStart rand s) (s.tails.length - 1)) t) := by
  rw [List.getLast?_eq_getElem?, afterFollow_length]
  rw [List.getLast?_eq_getElem?] at ht
  rw [afterFollow_processed rand s _ ?_, ht]
  · rfl
  · intro i hi
    have := (stopIndex_some _ _ i hi).2.1
    omega

/-- The first chain of `HandleInput` keeps high score and threshold; it keeps score and
game-over flag too, except for the Enter reset, which clears both. -/
theorem handleKeys_session (event : SDL_Event) (s : Game F) :
    (handleKeys event s).highScore = s.highScore
      ∧ (handleKeys event s).maxLevelScore = s.maxLevelScore
      ∧ (((handleKeys event s).score = s.score ∧ (handleKeys event s).gameOver = s.gameOver)
        ∨ ((handleKeys event s).score = 0 ∧ (handleKeys event s).gameOver = false)) := by
  unfold handleKeys
  split_ifs
  · simp
  · simp
  · simp [ResetGame]
  · simp only [SetDifficulty]
    split_ifs <;> simp
  · simp
  · simp

/-- The second chain of `HandleInput` keeps score, high score, threshold and game-over
flag. -/
theorem handleMove_session (event : SDL_Event) (s : Game F) :
    (handleMove event s).1.highScore = s.highScore
      ∧ (handleMove event s).1.maxLevelScore = s.maxLevelScore
      ∧ (handleMove event s).1.score = s.score
      ∧ (handleMove event s).1.gameOver = s.gameOver := by
  unfold handleMove
  split_ifs <;> simp <;> split_ifs <;> simp

/-- One polled event keeps high score and threshold; score and game-over flag are kept or,
by the Enter reset, both cleared. -/
theorem processEvent_session (event : SDL_Event) (s : Game F) :
    (processEvent event s).1.highScore = s.highScore
      ∧ (processEvent event s).1.maxLevelScore = s.maxLevelScore
      ∧ (((processEvent event s).1.score = s.score
          ∧ (processEvent event s).1.gameOver = s.gameOver)
        ∨ ((processEvent event s).1.score = 0 ∧ (processEvent event s).1.gameOver = false)) := by
  unfold processEvent
  obtain ⟨a1, a2, a3, a4⟩ := handleMove_session event (handleKeys event s)
  obtain ⟨b1, b2, b3⟩ := handleKeys_session event s
  rw [a1, a2, a3, a4]
  exact ⟨b1, b2, b3⟩

/-- The high score after a frame is at least the high score before. -/
theorem UpdateGame_highScore (rand : Nat → Vector F) (grow : Nat → Nat) (s : Game F) :
    s.highScore ≤ (UpdateGame rand grow s).highScore := by
  by_cases hover : s.gameOver = false
  · by_cases hpause : s.gameIsPaused = false
    · have hm : s.highScore ≤ (afterFollow rand s).highScore := by
        obtain ⟨-, -, h | h⟩ := afterFollow_session rand s
        · rw [h.2.2.2]
        · rw [h.2.2.2]; exact Nat.le_max_left _ _
      cases hf : HasCollided (afterFollow rand s).snake (afterFollow rand s).fruit with
      | true => rw [UpdateGame_eat rand grow s hover hpause hf, eatFruit_highScore]; exact hm
      | false =>
        rw [UpdateGame_miss rand grow s hover hpause hf]
        split
        · rw [GameOver_eq]
          exact Nat.le_trans hm (Nat.le_max_left _ _)
        · exact hm
    · unfold UpdateGame
      simp [hover, hpause]
  · unfold UpdateGame
    simp [hover]

/-- Polling the queue keeps the high score. -/
theorem HandleInput_highScore (queue : List SDL_Event) (s : Game F) :
    (HandleInput queue s).1.highScore = s.highScore := by
  induction queue generalizing s with
  | nil => rfl
  | cons event queue ih =>
    unfold HandleInput
    split
    · exact (processEvent_session event s).1
    · rw [ih]
      exact (processEvent_session event s).1

/-- One polled event preserves the invariant of the level-up test. -/
theorem processEvent_invariant (event : SDL_Event) (s : Game F)
    (h : scoreBelowThreshold s) : scoreBelowThreshold (processEvent event s).1 := by
  obtain ⟨-, h2, h3⟩ := processEvent_session event s
  obtain ⟨k1, k2⟩ := h
  unfold scoreBelowThreshold
  rw [h2]
  refine ⟨k1, ?_⟩
  rcases h3 with ⟨a, b⟩ | ⟨a, b⟩
  · rw [a, b]; exact k2
  · rw [a]; right; omega

/-- Polling the queue preserves the invariant of the level-up test. -/
theorem HandleInput_invariant (queue : List SDL_Event) (s : Game F)
    (h : scoreBelowThreshold s) : scoreBelowThreshold (HandleInput queue s).1 := by
  induction queue generalizing s with
  | nil => exact h
  | cons event queue ih =>
    unfold HandleInput
    split
    · exact processEvent_invariant event s h
    · exact ih _ (processEvent_invariant event s h)

/-- The function `NewLevel`, without overflow, preserves the invariant of the level-up
test and raises the threshold. -/
theorem NewLevel_invariant (s : Game F) (h : scoreBelowThreshold s)
    (hno : s.maxLevelScore + (s.level + 1) * 5 < UINT_MOD) :
    scoreBelowThreshold (NewLevel s) := by
  obtain ⟨k1, k2⟩ := h
  unfold UINT_MOD at hno
  have e1 : (s.level + 1) % 4294967296 = s.level + 1 := Nat.mod_eq_of_lt (by omega)
  have e2 : (s.level + 1) * 5 % 4294967296 = (s.level + 1) * 5 := Nat.mod_eq_of_lt (by omega)
  have e3 : (s.maxLevelScore + (s.level + 1) * 5) % 4294967296
      = s.maxLevelScore + (s.level + 1) * 5 := Nat.mod_eq_of_lt hno
  have hm : (NewLevel s).maxLevelScore = s.maxLevelScore + (s.level + 1) * 5 := by
    simp only [NewLevel, UINT_MOD, e1, e2, e3]
  have hs : (NewLevel s).score = s.score := rfl
  have hg : (NewLevel s).gameOver = s.gameOver := rfl
  unfold scoreBelowThreshold
  rw [hm, hs, hg]
  refine ⟨by omega, ?_⟩
  rcases k2 with k | k
  · exact Or.inl k
  · right; omega

/-- A frame, without overflow of score or threshold, preserves the invariant of the
level-up test. -/
theorem UpdateGame_invariant (rand : Nat → Vector F) (grow : Nat → Nat) (s : Game F)
    (h : scoreBelowThreshold s) (hs : s.score + 1 < UINT_MOD)
    (hno : s.maxLevelScore + (s.level + 1) * 5 < UINT_MOD) :
    scoreBelowThreshold (UpdateGame rand grow s) := by
  by_cases hover : s.gameOver = false
  swap
  · unfold UpdateGame; simp only [hover, if_false]; exact h
  by_cases hpause : s.gameIsPaused = false
  swap
  · unfold UpdateGame; simp only [hover, hpause, if_true, if_false]; exact h
  obtain ⟨k1, k2⟩ := h
  have k3 : s.score < s.maxLevelScore := by
    rcases k2 with k | k
    · rw [hover] at k; cases k
    · exact k
  obtain ⟨msc, -, hm⟩ := afterFollow_session rand s
  have hminv : scoreBelowThreshold (afterFollow rand s) := by
    unfold scoreBelowThreshold
    rcases hm with ⟨a, -, c, -⟩ | ⟨a, -, c, -⟩
    · rw [a, c, msc]; exact ⟨k1, Or.inr k3⟩
    · rw [a, c]; exact ⟨Nat.le_refl 5, Or.inl rfl⟩
  cases hf : HasCollided (afterFollow rand s).snake (afterFollow rand s).fruit with
  | false =>
    rw [UpdateGame_miss rand grow s hover hpause hf]
    split
    · rw [GameOver_eq]
      exact ⟨Nat.le_refl 5, Or.inl rfl⟩
    · exact hminv
  | true =>
    rw [UpdateGame_eat rand grow s hover hpause hf]
    have hgo := eatFruit_gameOver rand grow (afterFollow rand s)
    have hsc := (eatFruit_basic rand grow (afterFollow rand s)).1
    rw [msc] at hsc
    have hsc2 : (s.score + 1) % UINT_MOD = s.score + 1 := Nat.mod_eq_of_lt hs
    unfold scoreBelowThreshold
    rw [hgo, hsc, hsc2]
    unfold UINT_MOD at hno hsc2
    by_cases hlev : ((afterFollow rand s).score + 1) % UINT_MOD = (afterFollow rand s).maxLevelScore
    · obtain ⟨hl, hmx, -⟩ := eatFruit_levelUp rand grow (afterFollow rand s) hlev
      rw [hmx]
      rw [msc] at hlev
      unfold UINT_MOD at hlev ⊢
      rw [hsc2] at hlev
      rcases hm with ⟨a, b, c, -⟩ | ⟨a, b, c, -⟩
      · rw [b, c] at *
        have e1 : (s.level + 1) % 4294967296 = s.level + 1 := Nat.mod_eq_of_lt (by omega)
        have e2 : (s.level + 1) * 5 % 4294967296 = (s.level + 1) * 5 :=
          Nat.mod_eq_of_lt (by omega)
        have e3 : (s.maxLevelScore + (s.level + 1) * 5) % 4294967296
            = s.maxLevelScore + (s.level + 1) * 5 := Nat.mod_eq_of_lt hno
        rw [e1, e2, e3]
        exact ⟨by omega, Or.inr (by omega)⟩
      · rw [a, b, c]
        exact ⟨by decide, Or.inl rfl⟩
    · obtain ⟨-, -, hmx, -⟩ := eatFruit_grow rand grow (afterFollow rand s) hlev
      rw [hmx]
      rw [msc] at hlev
      unfold UINT_MOD at hlev
      rw [hsc2] at hlev
      rcases hm with ⟨a, b, c, -⟩ | ⟨a, b, c, -⟩
      · rw [c] at hlev ⊢
        exact ⟨k1, Or.inr (by omega)⟩
      · rw [a, c]
        exact ⟨Nat.le_refl 5, Or.inl rfl⟩

/-- Sample values of the binary32 arithmetic: `0.1f + 0.2f` is `0.3f`, `0.07f` is
`9395241 * 2^-27`, `sqrt(2.0f)` is `11863283 * 2^-23`, `1.0f / 3.0f` is
`11184811 * 2^-25`, and the facts `ZeroDistanceArith` hold at (0.25, -0.07). -/
theorem Binary32_samples :
    (0.1 : Binary32) + 0.2 = 0.3
      ∧ (0.07 : Binary32) = Binary32.finite 9395241 (-27)
      ∧ FloatOps.sqrt (2.0 : Binary32) = Binary32.finite 11863283 (-23)
      ∧ (1.0 : Binary32) / 3.0 = Binary32.finite 11184811 (-25)
      ∧ ZeroDistanceArith (⟨0.25, -0.07⟩ : Vector Binary32) := by
  unfold ZeroDistanceArith
  refine ⟨by decide, by decide, by decide, by decide, by decide, by decide, by decide,
    by decide, by decide, by decide, by decide⟩

/-- In a frame without fruit collision that ends game-over, the high score covers the
score. -/
theorem UpdateGame_highScore_covers_score (rand : Nat → Vector F) (grow : Nat → Nat)
    (s : Game F) (hover : s.gameOver = false) (hpause : s.gameIsPaused = false)
    (hfruit : HasCollided (afterFollow rand s).snake (afterFollow rand s).fruit = false)
    (hend : (UpdateGame rand grow s).gameOver = true) :
    (UpdateGame rand grow s).score ≤ (UpdateGame rand grow s).highScore := by
  rw [UpdateGame_miss rand grow s hover hpause hfruit] at hend ⊢
  split
  · rw [GameOver_eq]
    exact Nat.le_max_right _ _
  · rename_i hw
    rw [if_neg hw] at hend
    obtain ⟨hsc, -, h | h⟩ := afterFollow_session rand s
    · rw [h.1, hover] at hend
      cases hend
    · rw [hsc, h.2.2.2]
      exact Nat.le_max_right _ _

/-- The tail loop leaves velocity and paused flag alone. -/
theorem afterFollow_velocity (rand : Nat → Vector F) (s : Game F) :
    (afterFollow rand s).dX = s.dX ∧ (afterFollow rand s).dY = s.dY
      ∧ (afterFollow rand s).gameIsPaused = s.gameIsPaused := by
  obtain ⟨ts, h | h⟩ := afterFollow_cases rand s
  · rw [h, fruitExpiry_eq]
    split <;> simp [headMotion]
  · rw [h, GameOver_eq, fruitExpiry_eq]
    split <;> simp [headMotion]

/-- The fruit branch leaves velocity, trailing offset and paused flag alone. -/
theorem eatFruit_velocity (rand : Nat → Vector F) (grow : Nat → Nat) (s : Game F) :
    (eatFruit rand grow s).dX = s.dX ∧ (eatFruit rand grow s).dY = s.dY
      ∧ (eatFruit rand grow s).tailOffset = s.tailOffset
      ∧ (eatFruit rand grow s).gameIsPaused = s.gameIsPaused := by
  unfold eatFruit PlayCollisionSound NewLevel push_back GenerateRandomPoint
  simp only []
  split <;> split <;> exact ⟨rfl, rfl, rfl, rfl⟩

/-- Head motion starts from the head's position and uses the velocity and the frame
time of the state. -/
theorem loopStart_snake (rand : Nat → Vector F) (s : Game F) :
    (loopStart rand s).snake.transform.position
      = ⟨s.snake.transform.position.x + s.dX * s.deltaTime,
         s.snake.transform.position.y + s.dY * s.deltaTime⟩ := by
  unfold loopStart
  rw [fruitExpiry_eq]
  split <;> simp [headMotion, Transform.Translate, Entity.SetOldPosition]

end Lemmas

/-! ## The claims -/

section Claims

variable {F : Type} [FloatOps F]

/-- C1 (as amended): in every state that is neither paused nor game-over, if after head
motion and the tail loop the head collides with the fruit, then the score becomes
`(score + 1) mod 2^32` (an increase by exactly 1 unless the score is `2^32 - 1`), the fruit
spawn time becomes the current time, the fruit is placed at the next random point with
scale 0.025, and, whenever the new score differs from the threshold, the tail chain is the
chain after the tail loop extended by `push_back`: one more segment, the existing
segments keeping position and scale factor, and every other field when the storage is not
full; when it is full they are copy-constructed, which resets their previous positions. -/
theorem C1_fruit_eaten (rand : Nat → Vector F) (grow : Nat → Nat) (s : Game F)
    (hover : s.gameOver = false) (hpause : s.gameIsPaused = false)
    (hfruit : HasCollided (afterFollow rand s).snake (afterFollow rand s).fruit = true) :
    (UpdateGame rand grow s).score = (s.score + 1) % UINT_MOD
      ∧ (s.score + 1 < UINT_MOD → (UpdateGame rand grow s).score = s.score + 1)
      ∧ (UpdateGame rand grow s).fruitSpawnTime = s.currentTime
      ∧ (UpdateGame rand grow s).fruit.transform.position
          = rand (afterFollow rand s).randCalls
      ∧ (UpdateGame rand grow s).fruit.scaleFactor = 0.025
      ∧ ((s.score + 1) % UINT_MOD ≠ (afterFollow rand s).maxLevelScore →
          (UpdateGame rand grow s).tails
              = (if (afterFollow rand s).tails.length < (afterFollow rand s).tailsCapacity
                  then (afterFollow rand s).tails
                  else (afterFollow rand s).tails.map Entity.copy)
                ++ [newTail (afterFollow rand s)]
            ∧ (UpdateGame rand grow s).tails.length = (afterFollow rand s).tails.length + 1
            ∧ (UpdateGame rand grow s).tails.map (fun e => (e.transform.position, e.scaleFactor))
              = (afterFollow rand s).tails.map (fun e => (e.transform.position, e.scaleFactor))
                ++ [((newTail (afterFollow rand s)).transform.position, 0.030)]) := by
  obtain ⟨hsc, hct, -⟩ := afterFollow_counters rand s
  obtain ⟨h1, h2, h3, -⟩ := eatFruit_basic rand grow (afterFollow rand s)
  rw [UpdateGame_eat rand grow s hover hpause hfruit, h1, h2, h3, hsc, hct]
  refine ⟨rfl, fun h => Nat.mod_eq_of_lt h, rfl, rfl, rfl, ?_⟩
  intro hne
  rw [← hsc] at hne
  obtain ⟨ht, -⟩ := eatFruit_grow rand grow (afterFollow rand s) hne
  obtain ⟨p, hp⟩ := newTail_eq_ctor (afterFollow rand s)
  rw [ht]
  refine ⟨rfl, ?_, ?_⟩
  · split <;> simp
  · rw [hp]
    split
    · simp [Entity.ctor, Entity.setVertices]
    · simp [Entity.ctor, Entity.setVertices, Entity.copy, Function.comp_def]

/-- C1 at a concrete input: in `fruitAhead` the head reaches the fruit; the score goes from
0 to 1, the fruit moves to the random point (0.5, 0.5) and the empty chain gets its first
segment. -/
theorem C1_fruit_eaten_witness :
    (UpdateGame constRand doubling fruitAhead).score = 1
      ∧ (UpdateGame constRand doubling fruitAhead).fruit.transform.position = ⟨0.5, 0.5⟩
      ∧ (UpdateGame constRand doubling fruitAhead).tails.length = 1 :=
  ⟨(C1_fruit_eaten constRand doubling fruitAhead (by decide) (by decide) (by decide)).2.1
      (by decide),
   (C1_fruit_eaten constRand doubling fruitAhead (by decide) (by decide) (by decide)).2.2.2.1,
   ((C1_fruit_eaten constRand doubling fruitAhead (by decide) (by decide)
      (by decide)).2.2.2.2.2 (by decide)).2.1⟩

/-- C1 as stated fails twice. With the score at `2^32 - 1` the head eats the fruit and the
score becomes 0, not `score + 1`. In `secondFruit` (the second fruit of a game) the
storage is full, `push_back` copy-constructs the existing segment and its previous
position is reset, so the new chain is not the chain after the tail loop with one segment
appended. -/
theorem C1_counterexample :
    ({ fruitAhead with score := 4294967295 } : Game Fixed).gameOver = false
      ∧ ({ fruitAhead with score := 4294967295 } : Game Fixed).gameIsPaused = false
      ∧ HasCollided (afterFollow constRand { fruitAhead with score := 4294967295 }).snake
          (afterFollow constRand { fruitAhead with score := 4294967295 }).fruit = true
      ∧ (UpdateGame constRand doubling { fruitAhead with score := 4294967295 }).score = 0
      ∧ (UpdateGame constRand doubling { fruitAhead with score := 4294967295 }).score
          ≠ ({ fruitAhead with score := 4294967295 } : Game Fixed).score + 1
      ∧ secondFruit.gameOver = false ∧ secondFruit.gameIsPaused = false
      ∧ HasCollided (afterFollow constRand secondFruit).snake
          (afterFollow constRand secondFruit).fruit = true
      ∧ (UpdateGame constRand doubling secondFruit).score
          ≠ (afterFollow constRand secondFruit).maxLevelScore
      ∧ ¬ ∃ seg, (UpdateGame constRand doubling secondFruit).tails
          = (afterFollow constRand secondFruit).tails ++ [seg] := by
  refine ⟨by decide, by decide, by decide, by decide, by decide, by decide, by decide,
    by decide, by decide, ?_⟩
  rintro ⟨seg, h⟩
  have h2 := congrArg List.dropLast h
  rw [List.dropLast_concat] at h2
  revert h2
  decide

/-- C2 (as amended): on a fruit-eat event on which the incremented score equals the
threshold, `NewLevel` runs: the level becomes `(level + 1) mod 2^32`, the threshold
becomes `(threshold + 5 * newLevel mod 2^32) mod 2^32` (so exactly one more, and 5 times
the new level more, when neither overflows; from level 1 and threshold 5 the result is
level 2 and threshold 15), the tail chain becomes empty, the head goes to the origin and
the direction becomes Stopped. When the incremented score differs from the threshold, level
and threshold are unchanged. Level and threshold before the event are those left by the
tail loop. -/
theorem C2_level_up (rand : Nat → Vector F) (grow : Nat → Nat) (s : Game F)
    (hover : s.gameOver = false) (hpause : s.gameIsPaused = false)
    (hfruit : HasCollided (afterFollow rand s).snake (afterFollow rand s).fruit = true) :
    ((s.score + 1) % UINT_MOD = (afterFollow rand s).maxLevelScore →
        (UpdateGame rand grow s).level = ((afterFollow rand s).level + 1) % UINT_MOD
          ∧ (UpdateGame rand grow s).maxLevelScore
              = ((afterFollow rand s).maxLevelScore
                  + ((UpdateGame rand grow s).level * 5) % UINT_MOD) % UINT_MOD
          ∧ ((afterFollow rand s).maxLevelScore + ((afterFollow rand s).level + 1) * 5
                < UINT_MOD →
              (UpdateGame rand grow s).level = (afterFollow rand s).level + 1
                ∧ (UpdateGame rand grow s).maxLevelScore
                  = (afterFollow rand s).maxLevelScore + 5 * (UpdateGame rand grow s).level)
          ∧ ((afterFollow rand s).level = 1 → (afterFollow rand s).maxLevelScore = 5 →
              (UpdateGame rand grow s).level = 2 ∧ (UpdateGame rand grow s).maxLevelScore = 15)
          ∧ (UpdateGame rand grow s).tails = []
          ∧ (UpdateGame rand grow s).snake.transform.position = ⟨0.0, 0.0⟩
          ∧ (UpdateGame rand grow s).dir = eDirection.STOP)
      ∧ ((s.score + 1) % UINT_MOD ≠ (afterFollow rand s).maxLevelScore →
          (UpdateGame rand grow s).level = (afterFollow rand s).level
            ∧ (UpdateGame rand grow s).maxLevelScore = (afterFollow rand s).maxLevelScore) := by
  obtain ⟨hsc, -, -⟩ := afterFollow_counters rand s
  rw [UpdateGame_eat rand grow s hover hpause hfruit, ← hsc]
  constructor
  · intro heq
    obtain ⟨hl, hm, ht, hs, hd⟩ := eatFruit_levelUp rand grow (afterFollow rand s) heq
    rw [hl, hm, ht, hs, hd]
    refine ⟨rfl, rfl, ?_, ?_, rfl, rfl, rfl⟩
    · intro hlt
      unfold UINT_MOD at hlt ⊢
      have h1 : ((afterFollow rand s).level + 1) % 4294967296 = (afterFollow rand s).level + 1 :=
        Nat.mod_eq_of_lt (by omega)
      rw [h1]
      have h2 : ((afterFollow rand s).level + 1) * 5 % 4294967296
          = ((afterFollow rand s).level + 1) * 5 := Nat.mod_eq_of_lt (by omega)
      rw [h2]
      have h3 : ((afterFollow rand s).maxLevelScore + ((afterFollow rand s).level + 1) * 5)
          % 4294967296 = (afterFollow rand s).maxLevelScore + ((afterFollow rand s).level + 1) * 5 :=
        Nat.mod_eq_of_lt hlt
      rw [h3]
      exact ⟨rfl, by omega⟩
    · intro hl1 hm5
      rw [hl1, hm5]
      decide
  · intro hne
    obtain ⟨-, hl, hm, -⟩ := eatFruit_grow rand grow (afterFollow rand s) hne
    exact ⟨hl, hm⟩

/-- C2 at a concrete input: in `fruitAhead` with score 4 (level 1, threshold 5) the fifth
fruit gives level 2 and threshold 15, clears the chain and stops the head at the origin. -/
theorem C2_level_up_witness :
    (UpdateGame constRand doubling { fruitAhead with score := 4 }).level = 2
      ∧ (UpdateGame constRand doubling { fruitAhead with score := 4 }).maxLevelScore = 15
      ∧ (UpdateGame constRand doubling { fruitAhead with score := 4 }).tails = []
      ∧ (UpdateGame constRand doubling { fruitAhead with score := 4 }).snake.transform.position
          = ⟨0.0, 0.0⟩
      ∧ (UpdateGame constRand doubling { fruitAhead with score := 4 }).dir = eDirection.STOP
      ∧ (UpdateGame constRand doubling fruitAhead).level = 1
      ∧ (UpdateGame constRand doubling fruitAhead).maxLevelScore = 5
      ∧ (UpdateGame constRand doubling { fruitAhead with score := 4 }).level
          = (afterFollow constRand { fruitAhead with score := 4 }).level + 1 :=
  ⟨(((C2_level_up constRand doubling { fruitAhead with score := 4 } (by decide) (by decide)
        (by decide)).1 (by decide)).2.2.2.1 (by decide) (by decide)).1,
   (((C2_level_up constRand doubling { fruitAhead with score := 4 } (by decide) (by decide)
        (by decide)).1 (by decide)).2.2.2.1 (by decide) (by decide)).2,
   ((C2_level_up constRand doubling { fruitAhead with score := 4 } (by decide) (by decide)
        (by decide)).1 (by decide)).2.2.2.2.1,
   ((C2_level_up constRand doubling { fruitAhead with score := 4 } (by decide) (by decide)
        (by decide)).1 (by decide)).2.2.2.2.2.1,
   ((C2_level_up constRand doubling { fruitAhead with score := 4 } (by decide) (by decide)
        (by decide)).1 (by decide)).2.2.2.2.2.2,
   ((C2_level_up constRand doubling fruitAhead (by decide) (by decide)
        (by decide)).2 (by decide)).1,
   ((C2_level_up constRand doubling fruitAhead (by decide) (by decide)
        (by decide)).2 (by decide)).2,
   (((C2_level_up constRand doubling { fruitAhead with score := 4 } (by decide) (by decide)
        (by decide)).1 (by decide)).2.2.1 (by decide)).1⟩

/-- C2 as stated fails when a counter overflows. At level 41448 with threshold 4294945380
(the values the game has reached there) and score 4294945379, the fruit raises the score
to the threshold; the threshold becomes 185329, not 4294945380 + 5 * 41449. At level
`2^32 - 1` (threshold 2147483648) the level becomes 0, not `2^32`. -/
theorem C2_counterexample :
    ({ fruitAhead with level := 41448, maxLevelScore := 4294945380, score := 4294945379 }
        : Game Fixed).gameOver = false
      ∧ ({ fruitAhead with level := 41448, maxLevelScore := 4294945380, score := 4294945379 }
        : Game Fixed).gameIsPaused = false
      ∧ HasCollided
          (afterFollow constRand
            { fruitAhead with level := 41448, maxLevelScore := 4294945380,
                              score := 4294945379 }).snake
          (afterFollow constRand
            { fruitAhead with level := 41448, maxLevelScore := 4294945380,
                              score := 4294945379 }).fruit = true
      ∧ (UpdateGame constRand doubling
          { fruitAhead with level := 41448, maxLevelScore := 4294945380,
                            score := 4294945379 }).score = 4294945380
      ∧ (UpdateGame constRand doubling
          { fruitAhead with level := 41448, maxLevelScore := 4294945380,
                            score := 4294945379 }).level = 41449
      ∧ (UpdateGame constRand doubling
          { fruitAhead with level := 41448, maxLevelScore := 4294945380,
                            score := 4294945379 }).maxLevelScore = 185329
      ∧ (UpdateGame constRand doubling
          { fruitAhead with level := 41448, maxLevelScore := 4294945380,
                            score := 4294945379 }).maxLevelScore ≠ 4294945380 + 5 * 41449
      ∧ (UpdateGame constRand doubling
          { fruitAhead with level := 4294967295, maxLevelScore := 2147483648,
                            score := 2147483647 }).score = 2147483648
      ∧ (UpdateGame constRand doubling
          { fruitAhead with level := 4294967295, maxLevelScore := 2147483648,
                            score := 2147483647 }).level = 0
      ∧ (UpdateGame constRand doubling
          { fruitAhead with level := 4294967295, maxLevelScore := 2147483648,
                            score := 2147483647 }).level ≠ 4294967295 + 1 := by
  decide

/-- C3: in every state that is neither paused nor game-over, if after head motion and the
tail loop the head does not collide with the fruit and its position is below -0.999 or
above 0.999 on the x or the y axis, the frame ends in Game-Over: the game-over flag is set,
the direction is Stopped, the high score is the maximum of the previous high score and the
score, the level is 1 and the threshold is 5. If the head collides with the fruit, the
frame is the fruit branch alone and the game-over flag stays as the tail loop left it,
wherever the head is. -/
theorem C3_wall_collision (rand : Nat → Vector F) (grow : Nat → Nat) (s : Game F)
    (hover : s.gameOver = false) (hpause : s.gameIsPaused = false) :
    (HasCollided (afterFollow rand s).snake (afterFollow rand s).fruit = false →
        (FloatOps.lt (afterFollow rand s).snake.transform.position.x (-0.999) = true
          ∨ FloatOps.lt 0.999 (afterFollow rand s).snake.transform.position.x = true
          ∨ FloatOps.lt (afterFollow rand s).snake.transform.position.y (-0.999) = true
          ∨ FloatOps.lt 0.999 (afterFollow rand s).snake.transform.position.y = true) →
        (UpdateGame rand grow s).gameOver = true
          ∧ (UpdateGame rand grow s).dir = eDirection.STOP
          ∧ (UpdateGame rand grow s).highScore = max s.highScore s.score
          ∧ (UpdateGame rand grow s).level = 1
          ∧ (UpdateGame rand grow s).maxLevelScore = 5)
      ∧ (HasCollided (afterFollow rand s).snake (afterFollow rand s).fruit = true →
          UpdateGame rand grow s = eatFruit rand grow (afterFollow rand s)
            ∧ (UpdateGame rand grow s).gameOver = (afterFollow rand s).gameOver) := by
  constructor
  · intro hfruit hwall
    have hw : hitsWall (afterFollow rand s) = true := by
      unfold hitsWall
      simp only [Bool.or_eq_true]
      tauto
    rw [UpdateGame_miss rand grow s hover hpause hfruit, if_pos hw, GameOver_eq]
    obtain ⟨hsc, -, hhi⟩ := afterFollow_counters rand s
    refine ⟨rfl, rfl, ?_, rfl, rfl⟩
    show max (afterFollow rand s).highScore (afterFollow rand s).score = max s.highScore s.score
    rw [hsc]
    rcases hhi with h | h <;> rw [h]
    simp
  · intro hfruit
    rw [UpdateGame_eat rand grow s hover hpause hfruit]
    exact ⟨rfl, eatFruit_gameOver rand grow _⟩

/-- C3 at concrete inputs: a head that moves from (0.75, 0) to (1.0, 0) with the fruit far
away ends the frame in Game-Over; with the fruit at (1.0, 0) the same head eats the
fruit and the game goes on. -/
theorem C3_wall_collision_witness :
    ((UpdateGame constRand doubling
          { playing with snake := Entity.ctor ⟨0.75, 0.0⟩ 0.035, score := 3 }).gameOver = true
        ∧ (UpdateGame constRand doubling
          { playing with snake := Entity.ctor ⟨0.75, 0.0⟩ 0.035, score := 3 }).dir
            = eDirection.STOP
        ∧ (UpdateGame constRand doubling
          { playing with snake := Entity.ctor ⟨0.75, 0.0⟩ 0.035, score := 3 }).highScore = 3
        ∧ (UpdateGame constRand doubling
          { playing with snake := Entity.ctor ⟨0.75, 0.0⟩ 0.035, score := 3 }).level = 1
        ∧ (UpdateGame constRand doubling
          { playing with snake := Entity.ctor ⟨0.75, 0.0⟩ 0.035, score := 3 }).maxLevelScore = 5)
      ∧ (UpdateGame constRand doubling
          { playing with snake := Entity.ctor ⟨0.75, 0.0⟩ 0.035,
                         fruit := Entity.ctor ⟨1.0, 0.0⟩ 0.025 }).gameOver = false :=
  ⟨(C3_wall_collision constRand doubling
      { playing with snake := Entity.ctor ⟨0.75, 0.0⟩ 0.035, score := 3 }
      (by decide) (by decide)).1 (by decide) (Or.inr (Or.inl (by decide))),
   ((C3_wall_collision constRand doubling
      { playing with snake := Entity.ctor ⟨0.75, 0.0⟩ 0.035,
                     fruit := Entity.ctor ⟨1.0, 0.0⟩ 0.025 }
      (by decide) (by decide)).2 (by decide)).2⟩

/-- C4: in every state in which the paused flag or the game-over flag is set, `UpdateGame`
returns the state it was given, so head, fruit, tail segments, score, high score, level,
threshold, direction, velocity, fruit spawn time and both flags are unchanged; the count
of random points requested, the record of sound calls and the audio queue are
unchanged too. -/
theorem C4_UpdateGame_frozen (rand : Nat → Vector F) (grow : Nat → Nat) (s : Game F)
    (h : s.gameIsPaused = true ∨ s.gameOver = true) :
    UpdateGame rand grow s = s
      ∧ (UpdateGame rand grow s).randCalls = s.randCalls
      ∧ (UpdateGame rand grow s).cues = s.cues
      ∧ (UpdateGame rand grow s).audioQueue = s.audioQueue := by
  have key : UpdateGame rand grow s = s := by
    unfold UpdateGame
    rcases h with h | h
    · by_cases hg : s.gameOver = false
      · simp [hg, h]
      · simp [hg]
    · simp [h]
  simp [key]

/-- C4 at a concrete input: the running game paused by a Space key-down, and the start-up
state (which is game-over), are returned unchanged. -/
theorem C4_UpdateGame_frozen_witness :
    (processEvent ⟨EventType.SDL_KEYDOWN, Keycode.SDLK_SPACE⟩ playing).1.gameIsPaused = true
      ∧ UpdateGame constRand doubling
          (processEvent ⟨EventType.SDL_KEYDOWN, Keycode.SDLK_SPACE⟩ playing).1
        = (processEvent ⟨EventType.SDL_KEYDOWN, Keycode.SDLK_SPACE⟩ playing).1
      ∧ UpdateGame constRand doubling (Game.start constRand 0 2)
        = Game.start constRand 0 2 :=
  ⟨by decide,
   (C4_UpdateGame_frozen constRand doubling _ (Or.inl (by decide))).1,
   (C4_UpdateGame_frozen constRand doubling (Game.start constRand 0 2) (Or.inr (by decide))).1⟩

/-- C5: in every state that is neither paused nor game-over, in a frame in which the head
does not collide with the fruit, the head ends at its position before the frame plus
`(dX * deltaTime, dY * deltaTime)` and its previous position is its position before the
frame. In particular a head at (0,0) with velocity (0.25, 0) and `deltaTime` 1.0 ends at
(0.25, 0), in every arithmetic in which `0.0 + 0.25 * 1.0` is `0.25` and `0.0 + 0.0 * 1.0`
is `0.0` (as in IEEE binary32). -/
theorem C5_head_motion (rand : Nat → Vector F) (grow : Nat → Nat) (s : Game F)
    (hover : s.gameOver = false) (hpause : s.gameIsPaused = false)
    (hfruit : HasCollided (afterFollow rand s).snake (afterFollow rand s).fruit = false) :
    (UpdateGame rand grow s).snake.transform.position
        = ⟨s.snake.transform.position.x + s.dX * s.deltaTime,
           s.snake.transform.position.y + s.dY * s.deltaTime⟩
      ∧ (UpdateGame rand grow s).snake.oldPosition = s.snake.transform.position
      ∧ (s.snake.transform.position = ⟨0.0, 0.0⟩ → s.dX = 0.25 → s.dY = 0.0 →
          s.deltaTime = 1.0 → (0.0 + 0.25 * 1.0 : F) = 0.25 → (0.0 + 0.0 * 1.0 : F) = 0.0 →
          (UpdateGame rand grow s).snake.transform.position = ⟨0.25, 0.0⟩) := by
  have hs := afterFollow_snake rand s
  have key : (UpdateGame rand grow s).snake = (afterFollow rand s).snake := by
    rw [UpdateGame_miss rand grow s hover hpause hfruit]
    split
    · rw [GameOver_eq]
    · rfl
  rw [key]
  refine ⟨hs.1, hs.2, ?_⟩
  intro hp hx hy ht h1 h2
  rw [hs.1, hp, hx, hy, ht]
  simp only [h1, h2]

/-- C5 at a concrete input: the running game `playing` (head at the origin, velocity
(0.25, 0), frame time 1.0, fruit far away) ends the frame with the head at (0.25, 0) and
previous position (0, 0). -/
theorem C5_head_motion_witness :
    playing.gameOver = false ∧ playing.gameIsPaused = false
      ∧ HasCollided (afterFollow constRand playing).snake (afterFollow constRand playing).fruit
          = false
      ∧ (UpdateGame constRand doubling playing).snake.transform.position = ⟨0.25, 0.0⟩
      ∧ (UpdateGame constRand doubling playing).snake.oldPosition = ⟨0.0, 0.0⟩ :=
  ⟨by decide, by decide, by decide,
   (C5_head_motion constRand doubling playing (by decide) (by decide) (by decide)).2.2
      (by decide) (by decide) (by decide) (by decide) (by decide) (by decide),
   (C5_head_motion constRand doubling playing (by decide) (by decide) (by decide)).2.1⟩

/-- C6 (as amended): in every game-over state, an Enter key-down processed by
`HandleInput` yields score 0, paused flag false, game-over flag false, an empty tail chain,
the head at the origin, fruit spawn time equal to the current time, and direction Up with
velocity `(0, step)` and trailing offset `(0, -0.07)`: `ResetGame` runs after the
direction was set to Stopped and restarts the motion upwards. In a state that is not
game-over, an Enter key-down changes nothing. -/
theorem C6_enter_resets (s : Game F) :
    (s.gameOver = true →
        (processEvent ⟨EventType.SDL_KEYDOWN, Keycode.SDLK_RETURN⟩ s).1.score = 0
          ∧ (processEvent ⟨EventType.SDL_KEYDOWN, Keycode.SDLK_RETURN⟩ s).1.gameIsPaused = false
          ∧ (processEvent ⟨EventType.SDL_KEYDOWN, Keycode.SDLK_RETURN⟩ s).1.gameOver = false
          ∧ (processEvent ⟨EventType.SDL_KEYDOWN, Keycode.SDLK_RETURN⟩ s).1.tails = []
          ∧ (processEvent ⟨EventType.SDL_KEYDOWN, Keycode.SDLK_RETURN⟩ s).1.snake.transform.position
              = ⟨0.0, 0.0⟩
          ∧ (processEvent ⟨EventType.SDL_KEYDOWN, Keycode.SDLK_RETURN⟩ s).1.fruitSpawnTime
              = s.currentTime
          ∧ (processEvent ⟨EventType.SDL_KEYDOWN, Keycode.SDLK_RETURN⟩ s).1.dir = eDirection.UP
          ∧ (processEvent ⟨EventType.SDL_KEYDOWN, Keycode.SDLK_RETURN⟩ s).1.dX = 0.0
          ∧ (processEvent ⟨EventType.SDL_KEYDOWN, Keycode.SDLK_RETURN⟩ s).1.dY = s.step
          ∧ (processEvent ⟨EventType.SDL_KEYDOWN, Keycode.SDLK_RETURN⟩ s).1.tailOffset
              = ⟨0.0, -0.07⟩)
      ∧ (s.gameOver = false →
          processEvent ⟨EventType.SDL_KEYDOWN, Keycode.SDLK_RETURN⟩ s = (s, false)) := by
  constructor
  · intro h
    simp [processEvent, handleMove, handleKeys, h, ResetGame, Entity.SetPosition,
      Entity.setVertices, Vector.zero]
  · intro h
    simp [processEvent, handleMove, handleKeys, h]

/-- C6 at concrete inputs: Enter in the start-up state (game-over) starts a game moving up
at the Easy speed 0.25; Enter in the running game changes nothing. -/
theorem C6_enter_resets_witness :
    ((processEvent ⟨EventType.SDL_KEYDOWN, Keycode.SDLK_RETURN⟩
          (Game.start constRand 0 2)).1.gameOver = false
        ∧ (processEvent ⟨EventType.SDL_KEYDOWN, Keycode.SDLK_RETURN⟩
          (Game.start constRand 0 2)).1.dir = eDirection.UP
        ∧ (processEvent ⟨EventType.SDL_KEYDOWN, Keycode.SDLK_RETURN⟩
          (Game.start constRand 0 2)).1.dY = 0.25)
      ∧ processEvent ⟨EventType.SDL_KEYDOWN, Keycode.SDLK_RETURN⟩ playing = (playing, false) :=
  ⟨⟨((C6_enter_resets (Game.start constRand 0 2)).1 (by decide)).2.2.1,
    ((C6_enter_resets (Game.start constRand 0 2)).1 (by decide)).2.2.2.2.2.2.1,
    ((C6_enter_resets (Game.start constRand 0 2)).1 (by decide)).2.2.2.2.2.2.2.2.1⟩,
   (C6_enter_resets playing).2 (by decide)⟩

/-- C6 as stated fails: after Enter in the start-up state, which is game-over, the
direction is Up, not Stopped. -/
theorem C6_counterexample :
    (Game.start constRand 0 2 : Game Fixed).gameOver = true
      ∧ (processEvent ⟨EventType.SDL_KEYDOWN, Keycode.SDLK_RETURN⟩
          (Game.start constRand 0 2)).1.dir = eDirection.UP
      ∧ (processEvent ⟨EventType.SDL_KEYDOWN, Keycode.SDLK_RETURN⟩
          (Game.start constRand 0 2)).1.dir ≠ eDirection.STOP
      ∧ (HandleInput [⟨EventType.SDL_KEYDOWN, Keycode.SDLK_RETURN⟩]
          (Game.start constRand 0 2)).1.dir ≠ eDirection.STOP := by
  decide

/-- C7 (as amended): a directional key-down (Left/A, Right/D, Up/W, Down/S) processed by
`HandleInput` always clears the paused flag and ends the polling pass. If the current
direction is not the exact opposite of the key, the velocity becomes `(-step, 0)`,
`(step, 0)`, `(0, step)` or `(0, -step)`, the trailing offset becomes `(0.07, 0)`,
`(-0.07, 0)`, `(0, -0.07)` or `(0, 0.07)`, and the direction becomes that of the key; if it
is the exact opposite, velocity, trailing offset and direction are unchanged. Nothing
else changes. -/
theorem C7_direction_keys (s : Game F) (k : Keycode) :
    (k = Keycode.SDLK_LEFT ∨ k = Keycode.SDLK_a →
        (s.dir ≠ eDirection.RIGHT →
          processEvent ⟨EventType.SDL_KEYDOWN, k⟩ s =
            ({ s with gameIsPaused := false, dX := -s.step, dY := 0.0,
                      tailOffset := ⟨0.07, 0.0⟩, dir := eDirection.LEFT }, true))
        ∧ (s.dir = eDirection.RIGHT →
          processEvent ⟨EventType.SDL_KEYDOWN, k⟩ s = ({ s with gameIsPaused := false }, true)))
      ∧ (k = Keycode.SDLK_RIGHT ∨ k = Keycode.SDLK_d →
        (s.dir ≠ eDirection.LEFT →
          processEvent ⟨EventType.SDL_KEYDOWN, k⟩ s =
            ({ s with gameIsPaused := false, dX := s.step, dY := 0.0,
                      tailOffset := ⟨-0.07, 0.0⟩, dir := eDirection.RIGHT }, true))
        ∧ (s.dir = eDirection.LEFT →
          processEvent ⟨EventType.SDL_KEYDOWN, k⟩ s = ({ s with gameIsPaused := false }, true)))
      ∧ (k = Keycode.SDLK_UP ∨ k = Keycode.SDLK_w →
        (s.dir ≠ eDirection.DOWN →
          processEvent ⟨EventType.SDL_KEYDOWN, k⟩ s =
            ({ s with gameIsPaused := false, dX := 0.0, dY := s.step,
                      tailOffset := ⟨0.0, -0.07⟩, dir := eDirection.UP }, true))
        ∧ (s.dir = eDirection.DOWN →
          processEvent ⟨EventType.SDL_KEYDOWN, k⟩ s = ({ s with gameIsPaused := false }, true)))
      ∧ (k = Keycode.SDLK_DOWN ∨ k = Keycode.SDLK_s →
        (s.dir ≠ eDirection.UP →
          processEvent ⟨EventType.SDL_KEYDOWN, k⟩ s =
            ({ s with gameIsPaused := false, dX := 0.0, dY := -s.step,
                      tailOffset := ⟨0.0, 0.07⟩, dir := eDirection.DOWN }, true))
        ∧ (s.dir = eDirection.UP →
          processEvent ⟨EventType.SDL_KEYDOWN, k⟩ s = ({ s with gameIsPaused := false }, true))) := by
  refine ⟨?_, ?_, ?_, ?_⟩ <;> intro hk <;> rcases hk with hk | hk <;> subst hk <;>
    constructor <;> intro hd <;> simp [processEvent, handleMove, handleKeys, hd]

/-- C7 at concrete inputs: in the running game (moving right) Up and Down turn the head,
Right keeps it moving right, and Left, the exact opposite, leaves velocity, offset and
direction as they are; likewise for the opposite key of each other direction. -/
theorem C7_direction_keys_witness :
    processEvent ⟨EventType.SDL_KEYDOWN, Keycode.SDLK_UP⟩ playing
        = ({ playing with gameIsPaused := false, dX := 0.0, dY := 0.25,
                          tailOffset := ⟨0.0, -0.07⟩, dir := eDirection.UP }, true)
      ∧ processEvent ⟨EventType.SDL_KEYDOWN, Keycode.SDLK_s⟩ playing
        = ({ playing with gameIsPaused := false, dX := 0.0, dY := -0.25,
                          tailOffset := ⟨0.0, 0.07⟩, dir := eDirection.DOWN }, true)
      ∧ processEvent ⟨EventType.SDL_KEYDOWN, Keycode.SDLK_d⟩ playing
        = ({ playing with gameIsPaused := false, dX := 0.25, dY := 0.0,
                          tailOffset := ⟨-0.07, 0.0⟩, dir := eDirection.RIGHT }, true)
      ∧ processEvent ⟨EventType.SDL_KEYDOWN, Keycode.SDLK_LEFT⟩
          { playing with dir := eDirection.UP }
        = ({ playing with gameIsPaused := false, dX := -0.25, dY := 0.0,
                          tailOffset := ⟨0.07, 0.0⟩, dir := eDirection.LEFT }, true)
      ∧ processEvent ⟨EventType.SDL_KEYDOWN, Keycode.SDLK_a⟩ playing
        = ({ playing with gameIsPaused := false }, true)
      ∧ processEvent ⟨EventType.SDL_KEYDOWN, Keycode.SDLK_RIGHT⟩
          { playing with dir := eDirection.LEFT }
        = ({ playing with dir := eDirection.LEFT, gameIsPaused := false }, true)
      ∧ processEvent ⟨EventType.SDL_KEYDOWN, Keycode.SDLK_w⟩
          { playing with dir := eDirection.DOWN }
        = ({ playing with dir := eDirection.DOWN, gameIsPaused := false }, true)
      ∧ processEvent ⟨EventType.SDL_KEYDOWN, Keycode.SDLK_DOWN⟩
          { playing with dir := eDirection.UP }
        = ({ playing with dir := eDirection.UP, gameIsPaused := false }, true) :=
  ⟨((C7_direction_keys playing Keycode.SDLK_UP).2.2.1 (Or.inl rfl)).1 (by decide),
   ((C7_direction_keys playing Keycode.SDLK_s).2.2.2 (Or.inr rfl)).1 (by decide),
   ((C7_direction_keys playing Keycode.SDLK_d).2.1 (Or.inr rfl)).1 (by decide),
   ((C7_direction_keys { playing with dir := eDirection.UP } Keycode.SDLK_LEFT).1
      (Or.inl rfl)).1 (by decide),
   ((C7_direction_keys playing Keycode.SDLK_a).1 (Or.inr rfl)).2 (by decide),
   ((C7_direction_keys { playing with dir := eDirection.LEFT } Keycode.SDLK_RIGHT).2.1
      (Or.inl rfl)).2 (by decide),
   ((C7_direction_keys { playing with dir := eDirection.DOWN } Keycode.SDLK_w).2.2.1
      (Or.inr rfl)).2 (by decide),
   ((C7_direction_keys { playing with dir := eDirection.UP } Keycode.SDLK_DOWN).2.2.2
      (Or.inl rfl)).2 (by decide)⟩

/-- C7 as stated fails: the running game moving right, paused by Space, receives Left, the
exact opposite of its direction; the paused flag does not stay set, it is cleared. -/
theorem C7_counterexample :
    (processEvent ⟨EventType.SDL_KEYDOWN, Keycode.SDLK_SPACE⟩ playing).1.dir = eDirection.RIGHT
      ∧ (processEvent ⟨EventType.SDL_KEYDOWN, Keycode.SDLK_SPACE⟩ playing).1.gameIsPaused = true
      ∧ (processEvent ⟨EventType.SDL_KEYDOWN, Keycode.SDLK_LEFT⟩
          (processEvent ⟨EventType.SDL_KEYDOWN, Keycode.SDLK_SPACE⟩ playing).1).1.gameIsPaused
          = false
      ∧ (processEvent ⟨EventType.SDL_KEYDOWN, Keycode.SDLK_LEFT⟩
          (processEvent ⟨EventType.SDL_KEYDOWN, Keycode.SDLK_SPACE⟩ playing).1).1.gameIsPaused
          ≠ (processEvent ⟨EventType.SDL_KEYDOWN, Keycode.SDLK_SPACE⟩ playing).1.gameIsPaused := by
  decide

/-- C8: `HasCollided a b` is true exactly when the distance between the two positions,
`sqrt((b.x - a.x)^2 + (b.y - a.y)^2)`, is strictly below `b.scaleFactor * 2`; it is false
when the distance equals `b.scaleFactor * 2`; and it depends on `a` through its position
only, not through its scale factor (nor its vertices or previous position). -/
theorem C8_HasCollided (a b : Entity F) :
    (HasCollided a b = true ↔
        FloatOps.lt (Vector.Distance a.transform.position b.transform.position)
          (b.scaleFactor * 2.0) = true)
      ∧ Vector.Distance a.transform.position b.transform.position
          = FloatOps.sqrt
              ((b.transform.position.x - a.transform.position.x)
                  * (b.transform.position.x - a.transform.position.x)
                + (b.transform.position.y - a.transform.position.y)
                  * (b.transform.position.y - a.transform.position.y))
      ∧ (Vector.Distance a.transform.position b.transform.position = b.scaleFactor * 2.0 →
          HasCollided a b = false)
      ∧ (∀ a2 : Entity F, a2.transform.position = a.transform.position →
          HasCollided a2 b = HasCollided a b) := by
  refine ⟨?_, rfl, ?_, ?_⟩
  · unfold HasCollided
    simp
  · intro h
    unfold HasCollided
    simp [h, FloatOps.lt_irrefl]
  · intro a2 h
    unfold HasCollided
    simp [h]

/-- C8 at concrete inputs: a head at the origin and a fruit of scale 0.025 at (0.05, 0) are
at distance exactly 0.05 and do not collide, whatever the head's scale; at (0.04, 0) they
collide. -/
theorem C8_HasCollided_witness :
    Vector.Distance (Entity.ctor (⟨0.0, 0.0⟩ : Vector Fixed) 0.035).transform.position
        (Entity.ctor (⟨0.05, 0.0⟩ : Vector Fixed) 0.025).transform.position
        = (Entity.ctor (⟨0.05, 0.0⟩ : Vector Fixed) 0.025).scaleFactor * 2.0
      ∧ HasCollided (Entity.ctor (⟨0.0, 0.0⟩ : Vector Fixed) 0.035)
          (Entity.ctor ⟨0.05, 0.0⟩ 0.025) = false
      ∧ HasCollided (Entity.ctor (⟨0.0, 0.0⟩ : Vector Fixed) 0.5)
          (Entity.ctor ⟨0.05, 0.0⟩ 0.025)
        = HasCollided (Entity.ctor (⟨0.0, 0.0⟩ : Vector Fixed) 0.035)
          (Entity.ctor ⟨0.05, 0.0⟩ 0.025)
      ∧ HasCollided (Entity.ctor (⟨0.0, 0.0⟩ : Vector Fixed) 0.035)
          (Entity.ctor ⟨0.04, 0.0⟩ 0.025) = true :=
  ⟨by decide,
   (C8_HasCollided (Entity.ctor (⟨0.0, 0.0⟩ : Vector Fixed) 0.035)
      (Entity.ctor ⟨0.05, 0.0⟩ 0.025)).2.2.1 (by decide),
   (C8_HasCollided (Entity.ctor (⟨0.0, 0.0⟩ : Vector Fixed) 0.035)
      (Entity.ctor ⟨0.05, 0.0⟩ 0.025)).2.2.2 _ (by decide),
   by decide⟩

/-- C9: `SetDifficulty d` sets the difficulty to `d`, sets `(step, fruitLifeSpan)` to
`(0.25, 15000)` for Easy, `(0.45, 10000)` for Medium and `(0.65, 5000)` for Hard, and
changes no other field of the state. -/
theorem C9_SetDifficulty (s : Game F) :
    SetDifficulty eDifficulty.EASY s
        = { s with difficulty := eDifficulty.EASY, step := 0.25, fruitLifeSpan := 15000 }
      ∧ SetDifficulty eDifficulty.MEDIUM s
        = { s with difficulty := eDifficulty.MEDIUM, step := 0.45, fruitLifeSpan := 10000 }
      ∧ SetDifficulty eDifficulty.HARD s
        = { s with difficulty := eDifficulty.HARD, step := 0.65, fruitLifeSpan := 5000 }
      ∧ ∀ d : eDifficulty, (SetDifficulty d s).difficulty = d := by
  refine ⟨rfl, rfl, rfl, ?_⟩
  intro d
  cases d <;> rfl

/-- C10: a Tab key-down processed by `HandleInput` in a game-over state with Tab not held
replaces the difficulty `d` by `(d + 1) mod 3`; this cycle maps Easy to Medium, Medium to
Hard and Hard to Easy, three applications return `d`, one or two applications never do. -/
theorem C10_difficulty_cycle (s : Game F) (hover : s.gameOver = true)
    (htab : s.tabPressed = false) :
    (processEvent ⟨EventType.SDL_KEYDOWN, Keycode.SDLK_TAB⟩ s).1.difficulty
        = cycleDifficulty s.difficulty
      ∧ (∀ d : eDifficulty, cycleDifficulty d = eDifficulty.ofInt ((d.toInt + 1) % 3))
      ∧ cycleDifficulty eDifficulty.EASY = eDifficulty.MEDIUM
      ∧ cycleDifficulty eDifficulty.MEDIUM = eDifficulty.HARD
      ∧ cycleDifficulty eDifficulty.HARD = eDifficulty.EASY
      ∧ (∀ d : eDifficulty, cycleDifficulty (cycleDifficulty (cycleDifficulty d)) = d)
      ∧ (∀ d : eDifficulty, cycleDifficulty d ≠ d)
      ∧ (∀ d : eDifficulty, cycleDifficulty (cycleDifficulty d) ≠ d) := by
  refine ⟨?_, fun _ => rfl, rfl, rfl, rfl, ?_, ?_, ?_⟩
  · simp only [processEvent, handleMove, handleKeys, hover, htab]
    cases hd : s.difficulty <;> simp [SetDifficulty, cycleDifficulty, eDifficulty.toInt, eDifficulty.ofInt]
  · intro d; cases d <;> rfl
  · intro d; cases d <;> decide
  · intro d; cases d <;> decide

/-- C10 at a concrete input: Tab in the start-up state (Easy, game-over) selects Medium. -/
theorem C10_difficulty_cycle_witness :
    (processEvent ⟨EventType.SDL_KEYDOWN, Keycode.SDLK_TAB⟩
        (Game.start constRand 0 2)).1.difficulty = eDifficulty.MEDIUM :=
  (C10_difficulty_cycle (Game.start constRand 0 2) (by decide) (by decide)).1

/-- C11: for every vector `v`, `v / s` and `v /= s` are `v` itself whenever the test
`s != 0` fails, in particular for `s = 0` (in every arithmetic in which `0 != 0` is false,
as in IEEE binary32), and they are `(v.x / s, v.y / s)` whenever `s != 0` holds. -/
theorem C11_vector_division (v : Vector F) (s : F) :
    (FloatOps.ne (0.0 : F) 0.0 = false → v.div 0.0 = v ∧ v.divAssign 0.0 = v)
      ∧ (FloatOps.ne s 0.0 = false → v.div s = v ∧ v.divAssign s = v)
      ∧ (FloatOps.ne s 0.0 = true →
          v.div s = ⟨v.x / s, v.y / s⟩ ∧ v.divAssign s = ⟨v.x / s, v.y / s⟩) := by
  refine ⟨?_, ?_, ?_⟩ <;> intro h <;> simp [Vector.div, Vector.divAssign, h]

/-- C11 at concrete inputs: (0.3, 0.4) divided by 0 is (0.3, 0.4), divided by 0.5 it is
(0.6, 0.8). -/
theorem C11_vector_division_witness :
    ((⟨0.3, 0.4⟩ : Vector Fixed).div 0.0 = ⟨0.3, 0.4⟩
        ∧ (⟨0.3, 0.4⟩ : Vector Fixed).divAssign 0.0 = ⟨0.3, 0.4⟩)
      ∧ ((⟨0.3, 0.4⟩ : Vector Fixed).div 0.5 = ⟨0.6, 0.8⟩
        ∧ (⟨0.3, 0.4⟩ : Vector Fixed).divAssign 0.5 = ⟨0.6, 0.8⟩) :=
  ⟨⟨((C11_vector_division (⟨0.3, 0.4⟩ : Vector Fixed) 0.0).1 (by decide)).1,
    ((C11_vector_division (⟨0.3, 0.4⟩ : Vector Fixed) 0.0).2.1 (by decide)).2⟩,
   (C11_vector_division (⟨0.3, 0.4⟩ : Vector Fixed) 0.5).2.2 (by decide)⟩

/-- C12: after `e.SetPosition(p, s)` the position is `p`, the scale factor is `s`, the
previous position is the position `e` had before the call, and the vertices are
`(p.x - s, p.y + s)`, `(p.x + s, p.y + s)`, `(p.x - s, p.y - s)`, `(p.x + s, p.y - s)`. -/
theorem C12_SetPosition (e : Entity F) (p : Vector F) (s : F) :
    (e.SetPosition p s).transform.position = p
      ∧ (e.SetPosition p s).scaleFactor = s
      ∧ (e.SetPosition p s).oldPosition = e.transform.position
      ∧ (e.SetPosition p s).vertices
          = [p.x - s, p.y + s, p.x + s, p.y + s, p.x - s, p.y - s, p.x + s, p.y - s] :=
  ⟨rfl, rfl, rfl, rfl⟩

/-- C13: in the tail loop of a frame the reference point of segment 0 is the head after
head motion and that of segment `i + 1` is segment `i`. Whenever the computed distance of
a segment to its reference point is zero, the direction is not divided and the segment is
placed at the reference point minus the undivided direction times `tailSpacing`. A segment that
lies on its reference point (zero distance) has computed distance zero and has the same
position after the loop as before, in every arithmetic with the facts `ZeroDistanceArith`
(exact arithmetic, and IEEE binary32 at finite positions). A segment that the loop reaches
is replaced by `follow` of it. -/
theorem C13_zero_distance (rand : Nat → Vector F) (s : Game F) (j : Nat) (t : Entity F)
    (ht : s.tails[j]? = some t) :
    (refPoint (loopStart rand s) 0
          = ⟨s.snake.transform.position.x + s.dX * s.deltaTime,
             s.snake.transform.position.y + s.dY * s.deltaTime⟩
        ∧ ∀ i p, s.tails[i]? = some p →
            refPoint (loopStart rand s) (i + 1) = p.transform.position)
      ∧ (FloatOps.ne (Vector.Distance (refPoint (loopStart rand s) j) t.transform.position) 0.0
            = false →
          ((refPoint (loopStart rand s) j).sub t.transform.position).div
              (Vector.Distance (refPoint (loopStart rand s) j) t.transform.position)
            = (refPoint (loopStart rand s) j).sub t.transform.position
          ∧ (follow (refPoint (loopStart rand s) j) t).transform.position
            = (refPoint (loopStart rand s) j).sub
                (((refPoint (loopStart rand s) j).sub t.transform.position).mul tailSpacing))
      ∧ (t.transform.position = refPoint (loopStart rand s) j →
          ZeroDistanceArith (refPoint (loopStart rand s) j) →
          FloatOps.ne (Vector.Distance (refPoint (loopStart rand s) j) t.transform.position) 0.0
              = false
            ∧ (follow (refPoint (loopStart rand s) j) t).transform.position
              = t.transform.position
            ∧ ((afterFollow rand s).tails[j]?).map (fun e => e.transform.position)
              = some t.transform.position)
      ∧ ((∀ i, stopIndex (loopStart rand s) s.tails.length = some i → i ≤ j) →
          (afterFollow rand s).tails[j]? = some (follow (refPoint (loopStart rand s) j) t)) := by
  refine ⟨⟨?_, ?_⟩, ?_, ?_, ?_⟩
  · simp only [refPoint, loopStart]
    rw [fruitExpiry_eq]
    split <;> simp [headMotion, Transform.Translate, Entity.SetOldPosition]
  · intro i p hp
    simp only [refPoint, loopStart_tails, hp]
  · intro h
    simp [follow, Entity.SetPosition, Entity.setVertices, Vector.div, h]
  · intro hpos ha
    obtain ⟨h1, h2⟩ := follow_on_reference _ t hpos ha
    exact ⟨h1, h2, afterFollow_on_reference rand s j t ht hpos ha⟩
  · intro h
    rw [afterFollow_processed rand s j h, ht]
    rfl

/-- C13 at a concrete input: in `onHead` the single segment lies on the head, its
reference point; the distance is zero, nothing is divided and the segment stays at the
origin. -/
theorem C13_zero_distance_witness :
    FloatOps.ne (Vector.Distance (refPoint (loopStart constRand onHead) 0)
        (segmentAt 0.0 0.0).transform.position) 0.0 = false
      ∧ ((refPoint (loopStart constRand onHead) 0).sub (segmentAt 0.0 0.0).transform.position).div
            (Vector.Distance (refPoint (loopStart constRand onHead) 0)
              (segmentAt 0.0 0.0).transform.position)
          = (refPoint (loopStart constRand onHead) 0).sub (segmentAt 0.0 0.0).transform.position
      ∧ ((afterFollow constRand onHead).tails[0]?).map (fun e => e.transform.position)
          = some ⟨0.0, 0.0⟩
      ∧ (afterFollow constRand onHead).tails[0]?
          = some (follow (refPoint (loopStart constRand onHead) 0) (segmentAt 0.0 0.0)) :=
  ⟨((C13_zero_distance constRand onHead 0 (segmentAt 0.0 0.0) (by decide)).2.2.1
      (by decide) (by unfold ZeroDistanceArith; decide)).1,
   ((C13_zero_distance constRand onHead 0 (segmentAt 0.0 0.0) (by decide)).2.1 (by decide)).1,
   ((C13_zero_distance constRand onHead 0 (segmentAt 0.0 0.0) (by decide)).2.2.1
      (by decide) (by unfold ZeroDistanceArith; decide)).2.2,
   (C13_zero_distance constRand onHead 0 (segmentAt 0.0 0.0) (by decide)).2.2.2
      (fun i hi => by
        have h : stopIndex (loopStart constRand onHead) onHead.tails.length = none := by decide
        rw [h] at hi
        cases hi)⟩

/-- C14 (as amended): in every state that is neither paused nor game-over whose tail chain
has exactly 3 segments and in which segment 1 lies exactly on segment 0, its reference
point, the position of segment 1 after the frame is its position before the frame, unless
the frame ends in a level-up, which clears the chain (arithmetic facts as in C13). -/
theorem C14_segment_one (rand : Nat → Vector F) (grow : Nat → Nat) (s : Game F)
    (t0 t1 t2 : Entity F) (hover : s.gameOver = false) (hpause : s.gameIsPaused = false)
    (htails : s.tails = [t0, t1, t2])
    (hpos : t1.transform.position = t0.transform.position)
    (ha : ZeroDistanceArith t0.transform.position)
    (hlevel : ¬ (HasCollided (afterFollow rand s).snake (afterFollow rand s).fruit = true
      ∧ (s.score + 1) % UINT_MOD = (afterFollow rand s).maxLevelScore)) :
    ((UpdateGame rand grow s).tails[1]?).map (fun e => e.transform.position)
      = some t1.transform.position := by
  have h0 : s.tails[0]? = some t0 := by rw [htails]; rfl
  have h1 : s.tails[1]? = some t1 := by rw [htails]; rfl
  have href : refPoint (loopStart rand s) 1 = t0.transform.position := by
    simp only [refPoint, loopStart_tails, h0]
  rw [UpdateGame_segment_position rand grow s hover hpause hlevel 1 (by rw [htails]; simp)]
  exact afterFollow_on_reference rand s 1 t1 h1 (by rw [href]; exact hpos) (by rw [href]; exact ha)

/-- C14 at a concrete input: with the head at rest at the origin and the segments at
(0.5, 0), (0.5, 0) and (0.9, 0), the loop reaches segment 1, which lies on segment 0, and
leaves it at (0.5, 0). -/
theorem C14_segment_one_witness :
    ((UpdateGame constRand doubling
        { coiled with tails := [segmentAt 0.5 0.0, segmentAt 0.5 0.0, segmentAt 0.9 0.0] }
      ).tails[1]?).map (fun e => e.transform.position) = some ⟨0.5, 0.0⟩ :=
  C14_segment_one constRand doubling
    { coiled with tails := [segmentAt 0.5 0.0, segmentAt 0.5 0.0, segmentAt 0.9 0.0] }
    (segmentAt 0.5 0.0) (segmentAt 0.5 0.0) (segmentAt 0.9 0.0)
    (by decide) (by decide) rfl (by decide) (by unfold ZeroDistanceArith; decide) (by decide)

/-- C14 as stated fails: in `headOnSegmentOne` the head rests at the origin and segment 1
lies exactly on it, yet segment 1 is repositioned behind segment 0 and ends at (0.43, 0).
And in `pileUp`, where segment 1 lies on the head and on segment 0, the frame ends in a
level-up and no segment is left. -/
theorem C14_counterexample :
    headOnSegmentOne.gameOver = false ∧ headOnSegmentOne.gameIsPaused = false
      ∧ headOnSegmentOne.tails.length = 3
      ∧ (headOnSegmentOne.tails[1]?).map (fun e => e.transform.position)
          = some headOnSegmentOne.snake.transform.position
      ∧ (headOnSegmentOne.tails[1]?).map (fun e => e.transform.position)
          = some (loopStart constRand headOnSegmentOne).snake.transform.position
      ∧ ((UpdateGame constRand doubling headOnSegmentOne).tails[1]?).map
            (fun e => e.transform.position) = some ⟨0.43, 0.0⟩
      ∧ ((UpdateGame constRand doubling headOnSegmentOne).tails[1]?).map
            (fun e => e.transform.position)
          ≠ (headOnSegmentOne.tails[1]?).map (fun e => e.transform.position)
      ∧ pileUp.gameOver = false ∧ pileUp.gameIsPaused = false ∧ pileUp.tails.length = 3
      ∧ (pileUp.tails[1]?).map (fun e => e.transform.position)
          = some pileUp.snake.transform.position
      ∧ (UpdateGame constRand doubling pileUp).tails = [] := by
  decide

/-- C15 (as amended): a segment that the tail loop reaches and whose computed distance `d`
to its reference point is not zero is placed at the reference point minus
`((ref - old) / d) * tailSpacing`, coordinate by coordinate, with `tailSpacing` 0.070; its
scale becomes 0.030 and its previous position its position before the loop. -/
theorem C15_follow_spacing (rand : Nat → Vector F) (s : Game F) (j : Nat) (t : Entity F)
    (ht : s.tails[j]? = some t)
    (hreach : ∀ i, stopIndex (loopStart rand s) s.tails.length = some i → i ≤ j)
    (hne : FloatOps.ne (Vector.Distance (refPoint (loopStart rand s) j) t.transform.position) 0.0
      = true) :
    (afterFollow rand s).tails[j]? = some (follow (refPoint (loopStart rand s) j) t)
      ∧ (follow (refPoint (loopStart rand s) j) t).transform.position
          = ⟨(refPoint (loopStart rand s) j).x
                - ((refPoint (loopStart rand s) j).x - t.transform.position.x)
                    / Vector.Distance (refPoint (loopStart rand s) j) t.transform.position
                  * tailSpacing,
             (refPoint (loopStart rand s) j).y
                - ((refPoint (loopStart rand s) j).y - t.transform.position.y)
                    / Vector.Distance (refPoint (loopStart rand s) j) t.transform.position
                  * tailSpacing⟩
      ∧ (tailSpacing : F) = 0.070
      ∧ (follow (refPoint (loopStart rand s) j) t).scaleFactor = 0.030
      ∧ (follow (refPoint (loopStart rand s) j) t).oldPosition = t.transform.position := by
  refine ⟨?_, ?_, rfl, rfl, rfl⟩
  · rw [afterFollow_processed rand s j hreach, ht]
    rfl
  · simp [follow, Entity.SetPosition, Entity.setVertices, Vector.div, Vector.sub, Vector.mul,
      hne]

/-- C15 at a concrete input: in `diagonal` segment 0, at (-0.3, -0.4) and at distance 0.5
from the head at the origin, is placed at (-0.042, -0.056) with scale 0.030; in this case
its distance to the head is 0.07. -/
theorem C15_follow_spacing_witness :
    ((afterFollow constRand diagonal).tails[0]?).map (fun e => e.transform.position)
        = some ⟨-0.042, -0.056⟩
      ∧ (follow (refPoint (loopStart constRand diagonal) 0)
          (segmentAt (-0.3) (-0.4))).scaleFactor = 0.030
      ∧ Vector.Distance (refPoint (loopStart constRand diagonal) 0)
          (follow (refPoint (loopStart constRand diagonal) 0)
            (segmentAt (-0.3) (-0.4))).transform.position = 0.07 :=
  ⟨by
    rw [(C15_follow_spacing constRand diagonal 0 (segmentAt (-0.3) (-0.4)) (by decide)
      (fun i hi => by
        have h : stopIndex (loopStart constRand diagonal) diagonal.tails.length = none := by
          decide
        rw [h] at hi
        cases hi)
      (by decide)).1]
    decide,
   (C15_follow_spacing constRand diagonal 0 (segmentAt (-0.3) (-0.4)) (by decide)
      (fun i hi => by
        have h : stopIndex (loopStart constRand diagonal) diagonal.tails.length = none := by
          decide
        rw [h] at hi
        cases hi)
      (by decide)).2.2.2.1,
   by decide⟩

/-- C15 as stated fails in binary32: in `secondFruit32`, the second fruit of a game, the
head is at (0.5, 0) after head motion and the segment, coming from (-0.07, 0), is placed at
`7214203 * 2^-24`; its distance to the head is `1174405 * 2^-24`, about 0.0699999928, and
not 0.070, which in binary32 is `9395241 * 2^-27`. -/
theorem C15_counterexample :
    stopIndex (loopStart constRand32 secondFruit32) secondFruit32.tails.length = none
      ∧ (∃ t, secondFruit32.tails[0]? = some t
          ∧ FloatOps.ne (Vector.Distance (refPoint (loopStart constRand32 secondFruit32) 0)
              t.transform.position) 0.0 = true)
      ∧ (∃ e, (afterFollow constRand32 secondFruit32).tails[0]? = some e
          ∧ e.transform.position = ⟨Binary32.finite 7214203 (-24), Binary32.finite 0 0⟩
          ∧ Vector.Distance (refPoint (loopStart constRand32 secondFruit32) 0)
              e.transform.position = Binary32.finite 1174405 (-24)
          ∧ Vector.Distance (refPoint (loopStart constRand32 secondFruit32) 0)
              e.transform.position ≠ 0.070)
      ∧ (0.070 : Binary32) = Binary32.finite 9395241 (-27) := by
  refine ⟨by decide, ⟨_, rfl, by decide⟩, ⟨_, rfl, by decide, by decide, by decide⟩, by decide⟩

/-- C16: the tail loop tests a repositioned segment against the head for the indices 1
and up only. If segment `i` (with `i` at least 1) is the first one, coming down from the
last, whose repositioned place collides with the head, then `GameOver` is applied, the
game-over flag is set at the end of the frame, the segments below `i` are exactly as
before the frame (position included) and those from `i` on are repositioned. If no
segment of index 1 or more collides, the loop repositions every segment and applies no
`GameOver`, whatever segment 0 does. -/
theorem C16_self_collision (rand : Nat → Vector F) (grow : Nat → Nat) (s : Game F)
    (hover : s.gameOver = false) (hpause : s.gameIsPaused = false) :
    (∀ j t, s.tails[j]? = some t →
        hitsHead (loopStart rand s) j
          = HasCollided (loopStart rand s).snake (follow (refPoint (loopStart rand s) j) t))
      ∧ (∀ i, 1 ≤ i → i < s.tails.length → hitsHead (loopStart rand s) i = true →
          (∀ j, i < j → j < s.tails.length → hitsHead (loopStart rand s) j = false) →
          afterFollow rand s
              = GameOver { loopStart rand s with tails := followedFrom (loopStart rand s) i }
            ∧ (afterFollow rand s).gameOver = true
            ∧ (UpdateGame rand grow s).gameOver = true
            ∧ (∀ j, j < i → (afterFollow rand s).tails[j]? = s.tails[j]?)
            ∧ (∀ j, i ≤ j → (afterFollow rand s).tails[j]?
                = (s.tails[j]?).map (follow (refPoint (loopStart rand s) j))))
      ∧ ((∀ j, 1 ≤ j → j < s.tails.length → hitsHead (loopStart rand s) j = false) →
          afterFollow rand s
              = { loopStart rand s with tails := followedFrom (loopStart rand s) 0 }
            ∧ (afterFollow rand s).gameOver = false
            ∧ (∀ j, (afterFollow rand s).tails[j]?
                = (s.tails[j]?).map (follow (refPoint (loopStart rand s) j)))) := by
  refine ⟨?_, ?_, ?_⟩
  · intro j t ht
    simp only [hitsHead, loopStart_tails, ht]
  · intro i h1 h2 hhit habove
    have hst := stopIndex_of_hit (loopStart rand s) s.tails.length i h1 h2 hhit habove
    have hcl : afterFollow rand s
        = GameOver { loopStart rand s with tails := followedFrom (loopStart rand s) i } := by
      have h := afterFollow_closed rand s
      rw [hst] at h
      exact h
    have hgo : (afterFollow rand s).gameOver = true := by rw [hcl, GameOver_eq]
    refine ⟨hcl, hgo, UpdateGame_gameOver_of_loop rand grow s hover hpause hgo, ?_, ?_⟩
    · intro j hj
      exact afterFollow_kept rand s i j hst hj
    · intro j hj
      exact afterFollow_processed rand s j (by intro i2 hi; rw [hst] at hi; cases hi; exact hj)
  · intro hno
    have hst := stopIndex_of_no_hit (loopStart rand s) s.tails.length hno
    have hcl : afterFollow rand s
        = { loopStart rand s with tails := followedFrom (loopStart rand s) 0 } := by
      have h := afterFollow_closed rand s
      rw [hst] at h
      exact h
    refine ⟨hcl, ?_, ?_⟩
    · rw [hcl]
      exact (loopStart_flags rand s).1.trans hover
    · intro j
      exact afterFollow_processed rand s j (by intro i hi; rw [hst] at hi; cases hi)

/-- C16 at concrete inputs: in `coiled` segment 2 is repositioned without touching the
head, segment 1 lands on the head, the frame ends game-over and segment 0 is still at
(0.05, 0); in `onHead` segment 0 lies on the head and the game goes on. -/
theorem C16_self_collision_witness :
    ((afterFollow constRand coiled).gameOver = true
        ∧ (UpdateGame constRand doubling coiled).gameOver = true
        ∧ (afterFollow constRand coiled).tails[0]? = some (segmentAt 0.05 0.0)
        ∧ ((afterFollow constRand coiled).tails[1]?).map (fun e => e.transform.position)
            = some ⟨-0.02, 0.0⟩)
      ∧ (hitsHead (loopStart constRand onHead) 0 = true
        ∧ (afterFollow constRand onHead).gameOver = false) :=
  ⟨⟨((C16_self_collision constRand doubling coiled (by decide) (by decide)).2.1 1
        (by decide) (by decide) (by decide)
        (fun j h1 h2 => by
          have h3 : j < 3 := h2
          have h4 : j = 2 := by omega
          subst h4
          decide)).2.1,
    ((C16_self_collision constRand doubling coiled (by decide) (by decide)).2.1 1
        (by decide) (by decide) (by decide)
        (fun j h1 h2 => by
          have h3 : j < 3 := h2
          have h4 : j = 2 := by omega
          subst h4
          decide)).2.2.1,
    ((C16_self_collision constRand doubling coiled (by decide) (by decide)).2.1 1
        (by decide) (by decide) (by decide)
        (fun j h1 h2 => by
          have h3 : j < 3 := h2
          have h4 : j = 2 := by omega
          subst h4
          decide)).2.2.2.1 0 (by decide),
    by
      rw [((C16_self_collision constRand doubling coiled (by decide) (by decide)).2.1 1
        (by decide) (by decide) (by decide)
        (fun j h1 h2 => by
          have h3 : j < 3 := h2
          have h4 : j = 2 := by omega
          subst h4
          decide)).2.2.2.2 1 (by decide)]
      decide⟩,
   ⟨by decide,
    ((C16_self_collision constRand doubling onHead (by decide) (by decide)).2.2
        (fun j h1 h2 => by
          have h3 : j < 1 := h2
          omega)).2.1⟩⟩

/-- C17: on a fruit-eat event without level-up the last segment of the new chain is the
appended one; it has scale 0.030; when the chain was empty it is at the head's previous
position (the head's position before the frame) plus the trailing offset; when the chain
was not empty it is at the previous position of the former last segment (that segment's
position before the frame) plus the trailing offset. -/
theorem C17_new_segment (rand : Nat → Vector F) (grow : Nat → Nat) (s : Game F)
    (hover : s.gameOver = false) (hpause : s.gameIsPaused = false)
    (hfruit : HasCollided (afterFollow rand s).snake (afterFollow rand s).fruit = true)
    (hne : (s.score + 1) % UINT_MOD ≠ (afterFollow rand s).maxLevelScore) :
    ∃ e, (UpdateGame rand grow s).tails.getLast? = some e
      ∧ e.scaleFactor = 0.030
      ∧ ((afterFollow rand s).tails = [] →
          e.transform.position
              = ⟨(afterFollow rand s).snake.oldPosition.x + s.tailOffset.x,
                 (afterFollow rand s).snake.oldPosition.y + s.tailOffset.y⟩
            ∧ (afterFollow rand s).snake.oldPosition = s.snake.transform.position)
      ∧ (∀ last, (afterFollow rand s).tails.getLast? = some last →
          e.transform.position
            = ⟨last.oldPosition.x + s.tailOffset.x, last.oldPosition.y + s.tailOffset.y⟩)
      ∧ (∀ t, s.tails.getLast? = some t →
          e.transform.position
            = ⟨t.transform.position.x + s.tailOffset.x,
               t.transform.position.y + s.tailOffset.y⟩) := by
  obtain ⟨hsc, hoff, -⟩ := afterFollow_session rand s
  have hne2 : ((afterFollow rand s).score + 1) % UINT_MOD ≠ (afterFollow rand s).maxLevelScore := by
    rw [hsc]; exact hne
  refine ⟨newTail (afterFollow rand s), ?_, ?_, ?_, ?_, ?_⟩
  · rw [UpdateGame_eat rand grow s hover hpause hfruit,
      (eatFruit_grow rand grow (afterFollow rand s) hne2).1]
    simp
  · obtain ⟨p, hp⟩ := newTail_eq_ctor (afterFollow rand s)
    rw [hp]
    rfl
  · intro hempty
    refine ⟨?_, (afterFollow_snake rand s).2⟩
    simp only [newTail, hempty, List.getLast?_nil, ← hoff]
    rfl
  · intro last hlast
    simp only [newTail, hlast, ← hoff]
    rfl
  · intro t ht
    simp only [newTail, afterFollow_getLast rand s t ht, ← hoff]
    rfl

/-- C17 at concrete inputs: in `fruitAhead` (empty chain, head coming from the origin,
trailing offset (-0.07, 0)) the new segment is at (-0.07, 0); in `secondFruit` (one
segment, at (-0.07, 0) before the frame) the new segment is at (-0.14, 0). -/
theorem C17_new_segment_witness :
    (∃ e, (UpdateGame constRand doubling fruitAhead).tails.getLast? = some e
        ∧ e.scaleFactor = 0.030 ∧ e.transform.position = ⟨-0.07, 0.0⟩)
      ∧ (∃ e, (UpdateGame constRand doubling secondFruit).tails.getLast? = some e
        ∧ e.scaleFactor = 0.030 ∧ e.transform.position = ⟨-0.14, 0.0⟩) := by
  obtain ⟨e, h1, h2, h3, -, -⟩ :=
    C17_new_segment constRand doubling fruitAhead (by decide) (by decide) (by decide) (by decide)
  obtain ⟨e2, k1, k2, -, -, k5⟩ :=
    C17_new_segment constRand doubling secondFruit (by decide) (by decide) (by decide) (by decide)
  refine ⟨⟨e, h1, h2, ?_⟩, ⟨e2, k1, k2, ?_⟩⟩
  · rw [(h3 (by decide)).1]
    decide
  · rw [k5 (segmentAt (-0.07) 0.0) (by decide)]
    decide

/-- C18: the high score never decreases: it is at least as large after `UpdateGame`,
`GameOver`, `ResetGame`, `NewLevel`, `SetDifficulty`, after every event processed by
`HandleInput` (the Enter reset included) and after a whole polling pass. -/
theorem C18_highScore_monotone (rand : Nat → Vector F) (grow : Nat → Nat) (s : Game F)
    (d : eDifficulty) (event : SDL_Event) (queue : List SDL_Event) :
    s.highScore ≤ (UpdateGame rand grow s).highScore
      ∧ s.highScore ≤ (GameOver s).highScore
      ∧ s.highScore ≤ (ResetGame s).highScore
      ∧ s.highScore ≤ (NewLevel s).highScore
      ∧ s.highScore ≤ (SetDifficulty d s).highScore
      ∧ s.highScore ≤ (processEvent event s).1.highScore
      ∧ s.highScore ≤ (HandleInput queue s).1.highScore := by
  refine ⟨UpdateGame_highScore rand grow s, ?_, ?_, ?_, ?_, ?_, ?_⟩
  · rw [GameOver_eq]
    exact Nat.le_max_left _ _
  · unfold ResetGame
    simp only []
    split <;> exact Nat.le_refl _
  · exact Nat.le_refl _
  · unfold SetDifficulty
    simp only []
    split_ifs <;> exact Nat.le_refl _
  · rw [(processEvent_session event s).1]
  · rw [HandleInput_highScore]

/-- C20: the predicate `scoreBelowThreshold` (threshold at least 5, and game over or score
strictly below the threshold) holds in the state on entry to the main loop, after the
start-up `GameOver`; it is preserved by `UpdateGame` and by `NewLevel` when the counters do
not overflow (counters as natural numbers), it holds after every `GameOver`, and it is
preserved by every event of `HandleInput`, the Enter reset included, and by a whole polling
pass. Hence in a state with the predicate that is not game-over the score is strictly
below the threshold, and the next increment cannot pass it. -/
theorem C20_score_below_threshold (rand : Nat → Vector F) (grow : Nat → Nat) (s : Game F)
    (event : SDL_Event) (queue : List SDL_Event) (ticks sources : Nat) :
    scoreBelowThreshold (Game.start rand ticks sources)
      ∧ (scoreBelowThreshold s → s.score + 1 < UINT_MOD →
          s.maxLevelScore + (s.level + 1) * 5 < UINT_MOD →
          scoreBelowThreshold (UpdateGame rand grow s))
      ∧ scoreBelowThreshold (GameOver s)
      ∧ (scoreBelowThreshold s → s.maxLevelScore + (s.level + 1) * 5 < UINT_MOD →
          scoreBelowThreshold (NewLevel s))
      ∧ (scoreBelowThreshold s → scoreBelowThreshold (processEvent event s).1)
      ∧ (scoreBelowThreshold s → scoreBelowThreshold (HandleInput queue s).1)
      ∧ (scoreBelowThreshold s → s.gameOver = false →
          s.score < s.maxLevelScore ∧ s.score + 1 ≤ s.maxLevelScore) := by
  refine ⟨?_, UpdateGame_invariant rand grow s, ?_, NewLevel_invariant s,
    processEvent_invariant event s, HandleInput_invariant queue s, ?_⟩
  · unfold Game.start
    rw [GameOver_eq]
    exact ⟨Nat.le_refl 5, Or.inl rfl⟩
  · rw [GameOver_eq]
    exact ⟨Nat.le_refl 5, Or.inl rfl⟩
  · intro h hover
    rcases h.2 with k | k
    · rw [hover] at k; cases k
    · exact ⟨k, k⟩

/-- C20 at concrete inputs: the predicate holds in `fruitAhead` with score 4 of the
threshold 5 and still holds after the frame that eats the fifth fruit and levels up
(score 5, threshold 15); it holds after Enter in the start-up state and after `NewLevel`
in the running game. -/
theorem C20_score_below_threshold_witness :
    scoreBelowThreshold (UpdateGame constRand doubling { fruitAhead with score := 4 })
      ∧ (UpdateGame constRand doubling { fruitAhead with score := 4 }).score = 5
      ∧ (UpdateGame constRand doubling { fruitAhead with score := 4 }).maxLevelScore = 15
      ∧ scoreBelowThreshold (NewLevel playing)
      ∧ scoreBelowThreshold
          (processEvent ⟨EventType.SDL_KEYDOWN, Keycode.SDLK_RETURN⟩ (Game.start constRand 0 2)).1
      ∧ scoreBelowThreshold
          (HandleInput [⟨EventType.SDL_KEYDOWN, Keycode.SDLK_RETURN⟩,
            ⟨EventType.SDL_KEYDOWN, Keycode.SDLK_RIGHT⟩] (Game.start constRand 0 2)).1
      ∧ (playing.score < playing.maxLevelScore ∧ playing.score + 1 ≤ playing.maxLevelScore) :=
  ⟨(C20_score_below_threshold constRand doubling { fruitAhead with score := 4 }
      ⟨EventType.OTHER, Keycode.OTHER⟩ [] 0 2).2.1
      (by unfold scoreBelowThreshold; decide) (by decide) (by decide),
   by decide, by decide,
   (C20_score_below_threshold constRand doubling playing
      ⟨EventType.OTHER, Keycode.OTHER⟩ [] 0 2).2.2.2.1
      (by unfold scoreBelowThreshold; decide) (by decide),
   (C20_score_below_threshold constRand doubling (Game.start constRand 0 2)
      ⟨EventType.SDL_KEYDOWN, Keycode.SDLK_RETURN⟩ [] 0 2).2.2.2.2.1
      (by unfold scoreBelowThreshold; decide),
   (C20_score_below_threshold constRand doubling (Game.start constRand 0 2)
      ⟨EventType.OTHER, Keycode.OTHER⟩
      [⟨EventType.SDL_KEYDOWN, Keycode.SDLK_RETURN⟩, ⟨EventType.SDL_KEYDOWN, Keycode.SDLK_RIGHT⟩]
      0 2).2.2.2.2.2.1
      (by unfold scoreBelowThreshold; decide),
   (C20_score_below_threshold constRand doubling playing
      ⟨EventType.OTHER, Keycode.OTHER⟩ [] 0 2).2.2.2.2.2.2
      (by unfold scoreBelowThreshold; decide) (by decide)⟩

/-- C19 (as amended): `SetPosition` with any point and scale yields a consistent shape,
whatever the entity was. `Translate` by `(dX, dY)`, the head-motion step, moves the
position by `(dX, dY)` and adds `dX` or `dY` to every vertex coordinate; applied to a
consistent shape it yields the vertices `((x ± s) + dX, (y ± s) + dY)`, which are the
corners of the square at the new position exactly when these sums equal
`(x + dX) ± s` and `(y + dY) ± s`, as they do in exact arithmetic. -/
theorem C19_shape_consistency (e : Entity F) (p : Vector F) (c dX dY : F) (s : Game F) :
    (e.SetPosition p c).consistent
      ∧ (e.consistent →
          (e.transform.Translate e.vertices dX dY).1.position
              = ⟨e.transform.position.x + dX, e.transform.position.y + dY⟩
            ∧ (e.transform.Translate e.vertices dX dY).2
              = [ e.transform.position.x - e.scaleFactor + dX,
                  e.transform.position.y + e.scaleFactor + dY,
                  e.transform.position.x + e.scaleFactor + dX,
                  e.transform.position.y + e.scaleFactor + dY,
                  e.transform.position.x - e.scaleFactor + dX,
                  e.transform.position.y - e.scaleFactor + dY,
                  e.transform.position.x + e.scaleFactor + dX,
                  e.transform.position.y - e.scaleFactor + dY ]
            ∧ (e.transform.position.x - e.scaleFactor + dX
                  = e.transform.position.x + dX - e.scaleFactor →
                e.transform.position.x + e.scaleFactor + dX
                  = e.transform.position.x + dX + e.scaleFactor →
                e.transform.position.y + e.scaleFactor + dY
                  = e.transform.position.y + dY + e.scaleFactor →
                e.transform.position.y - e.scaleFactor + dY
                  = e.transform.position.y + dY - e.scaleFactor →
                (e.transform.Translate e.vertices dX dY).2
                  = (e.transform.Translate e.vertices dX dY).1.GenQuadVertices e.scaleFactor))
      ∧ ((headMotion s).snake.transform
            = (s.snake.transform.Translate s.snake.vertices
                (s.dX * s.deltaTime) (s.dY * s.deltaTime)).1
          ∧ (headMotion s).snake.vertices
            = (s.snake.transform.Translate s.snake.vertices
                (s.dX * s.deltaTime) (s.dY * s.deltaTime)).2
          ∧ (headMotion s).snake.scaleFactor = s.snake.scaleFactor) := by
  refine ⟨rfl, ?_, rfl, rfl, rfl⟩
  intro hc
  unfold Entity.consistent at hc
  have hv : (e.transform.Translate e.vertices dX dY).2
      = [ e.transform.position.x - e.scaleFactor + dX,
          e.transform.position.y + e.scaleFactor + dY,
          e.transform.position.x + e.scaleFactor + dX,
          e.transform.position.y + e.scaleFactor + dY,
          e.transform.position.x - e.scaleFactor + dX,
          e.transform.position.y - e.scaleFactor + dY,
          e.transform.position.x + e.scaleFactor + dX,
          e.transform.position.y - e.scaleFactor + dY ] := by
    simp [Transform.Translate, hc, Transform.GenQuadVertices, List.mapIdx_cons]
  refine ⟨rfl, hv, ?_⟩
  intro h1 h2 h3 h4
  rw [hv]
  simp only [Transform.Translate, Transform.GenQuadVertices, h1, h2, h3, h4]

/-- C19 at a concrete input: in fixed-point arithmetic, where sums are exact, the head of
`playing` is consistent, and after `Translate` by (0.25, 0) its vertices are the corners
of the square at (0.25, 0). -/
theorem C19_shape_consistency_witness :
    playing.snake.consistent
      ∧ (playing.snake.transform.Translate playing.snake.vertices 0.25 0.0).2
          = (playing.snake.transform.Translate playing.snake.vertices 0.25 0.0).1.GenQuadVertices
              playing.snake.scaleFactor
      ∧ (playing.snake.transform.Translate playing.snake.vertices 0.25 0.0).2
          = [0.215, 0.035, 0.285, 0.035, 0.215, -0.035, 0.285, -0.035] :=
  ⟨by unfold Entity.consistent; decide,
   ((C19_shape_consistency playing.snake ⟨0.0, 0.0⟩ 0.035 0.25 0.0 playing).2.1
      (by unfold Entity.consistent; decide)).2.2
      (by decide) (by decide) (by decide) (by decide),
   by
    rw [((C19_shape_consistency playing.snake ⟨0.0, 0.0⟩ 0.035 0.25 0.0 playing).2.1
      (by unfold Entity.consistent; decide)).2.1]
    decide⟩

/-- C19 as stated fails in binary32: after the first frame of `playing32` the head is at
(0.25, 0) with scale 0.035 and its shape is consistent; the head motion of the second
frame translates it by (0.25, 0), and the vertex `(0.25 + 0.035) + 0.25` is
`4487905 * 2^-23` while the corner `(0.25 + 0.25) + 0.035` is `8975811 * 2^-24`: the shape
of the head is no longer consistent. -/
theorem C19_counterexample :
    (UpdateGame constRand32 doubling playing32).snake.consistent
      ∧ (UpdateGame constRand32 doubling playing32).snake.transform.position = ⟨0.25, 0.0⟩
      ∧ ¬ (headMotion (UpdateGame constRand32 doubling playing32)).snake.consistent
      ∧ ¬ (UpdateGame constRand32 doubling
            (UpdateGame constRand32 doubling playing32)).snake.consistent
      ∧ ((0.25 : Binary32) + 0.035) + 0.25 = Binary32.finite 4487905 (-23)
      ∧ ((0.25 : Binary32) + 0.25) + 0.035 = Binary32.finite 8975811 (-24) := by
  unfold Entity.consistent
  decide

/-- C21 (the code at the failing input): in `bite`, a running game with score 3 and high
score 3, segment 1 lands on the head, so the tail loop applies `GameOver` (high score
stays 3) and ends; the head is on the fruit, so the fruit branch of the same frame raises
the score to 4: the frame ends with the game-over flag set, score 4 and high score 3. The
same happens in binary32 arithmetic. -/
theorem C21_failing_frame :
    bite.gameOver = false ∧ bite.gameIsPaused = false
      ∧ bite.score = 3 ∧ bite.highScore = 3
      ∧ (afterFollow constRand bite).gameOver = true
      ∧ (afterFollow constRand bite).highScore = 3
      ∧ HasCollided (afterFollow constRand bite).snake (afterFollow constRand bite).fruit = true
      ∧ (UpdateGame constRand doubling bite).gameOver = true
      ∧ (UpdateGame constRand doubling bite).score = 4
      ∧ (UpdateGame constRand doubling bite).highScore = 3
      ∧ ¬ ((UpdateGame constRand doubling bite).score
            ≤ (UpdateGame constRand doubling bite).highScore)
      ∧ (UpdateGame constRand32 doubling bite32).gameOver = true
      ∧ (UpdateGame constRand32 doubling bite32).score = 4
      ∧ (UpdateGame constRand32 doubling bite32).highScore = 3 := by
  refine ⟨by decide, by decide, by decide, by decide, by decide, by decide, by decide,
    by decide, by decide, by decide, by decide, by decide, by decide, by decide⟩

/-- C22: `NewLevel` and `GameOver` set the direction to Stopped and leave velocity and
trailing offset as they are. After a frame that ends in a level-up the head is at the
origin, the direction is Stopped, velocity and trailing offset are those before the frame
and the game is not paused; so the head motion of the following frame translates the head
from the origin by the old velocity times the frame time, and that is where the head is
after that frame when the game is not over and no fruit is eaten in it. -/
theorem C22_velocity_kept (rand : Nat → Vector F) (grow : Nat → Nat) (s : Game F)
    (dt : F) (now : Nat) :
    ((NewLevel s).dir = eDirection.STOP ∧ (NewLevel s).dX = s.dX ∧ (NewLevel s).dY = s.dY
        ∧ (NewLevel s).tailOffset = s.tailOffset)
      ∧ ((GameOver s).dir = eDirection.STOP ∧ (GameOver s).dX = s.dX ∧ (GameOver s).dY = s.dY
        ∧ (GameOver s).tailOffset = s.tailOffset)
      ∧ (s.gameOver = false → s.gameIsPaused = false →
          HasCollided (afterFollow rand s).snake (afterFollow rand s).fruit = true →
          (s.score + 1) % UINT_MOD = (afterFollow rand s).maxLevelScore →
          (UpdateGame rand grow s).snake.transform.position = ⟨0.0, 0.0⟩
            ∧ (UpdateGame rand grow s).dir = eDirection.STOP
            ∧ (UpdateGame rand grow s).dX = s.dX
            ∧ (UpdateGame rand grow s).dY = s.dY
            ∧ (UpdateGame rand grow s).tailOffset = s.tailOffset
            ∧ (UpdateGame rand grow s).gameIsPaused = false
            ∧ (loopStart rand (nextFrame dt now (UpdateGame rand grow s))).snake.transform.position
              = ⟨0.0 + s.dX * dt, 0.0 + s.dY * dt⟩
            ∧ ((UpdateGame rand grow s).gameOver = false →
                HasCollided (afterFollow rand (nextFrame dt now (UpdateGame rand grow s))).snake
                  (afterFollow rand (nextFrame dt now (UpdateGame rand grow s))).fruit = false →
                (UpdateGame rand grow
                    (nextFrame dt now (UpdateGame rand grow s))).snake.transform.position
                  = ⟨0.0 + s.dX * dt, 0.0 + s.dY * dt⟩)) := by
  refine ⟨⟨rfl, rfl, rfl, rfl⟩, ?_, ?_⟩
  · rw [GameOver_eq]
    exact ⟨rfl, rfl, rfl, rfl⟩
  · intro hover hpause hfruit hlev
    obtain ⟨hsc, hoff, -⟩ := afterFollow_session rand s
    obtain ⟨hvx, hvy, hvp⟩ := afterFollow_velocity rand s
    obtain ⟨ex, ey, eo, ep⟩ := eatFruit_velocity rand grow (afterFollow rand s)
    rw [← hsc] at hlev
    obtain ⟨-, -, -, hsn, hdir⟩ := eatFruit_levelUp rand grow (afterFollow rand s) hlev
    have hr := UpdateGame_eat rand grow s hover hpause hfruit
    have hpos : (UpdateGame rand grow s).snake.transform.position = ⟨0.0, 0.0⟩ := by
      rw [hr, hsn]; rfl
    have hdx : (UpdateGame rand grow s).dX = s.dX := by rw [hr, ex, hvx]
    have hdy : (UpdateGame rand grow s).dY = s.dY := by rw [hr, ey, hvy]
    have hnext : (loopStart rand (nextFrame dt now (UpdateGame rand grow s))).snake.transform.position
        = ⟨0.0 + s.dX * dt, 0.0 + s.dY * dt⟩ := by
      rw [loopStart_snake]
      simp only [nextFrame, hpos, hdx, hdy]
    refine ⟨hpos, by rw [hr, hdir], hdx, hdy, by rw [hr, eo, hoff], by rw [hr, ep, hvp, hpause],
      hnext, ?_⟩
    intro hgo hmiss
    have hpa : (nextFrame dt now (UpdateGame rand grow s)).gameIsPaused = false := by
      show (UpdateGame rand grow s).gameIsPaused = false
      rw [hr, ep, hvp, hpause]
    have hgo2 : (nextFrame dt now (UpdateGame rand grow s)).gameOver = false := hgo
    rw [UpdateGame_miss rand grow (nextFrame dt now (UpdateGame rand grow s)) hgo2 hpa hmiss]
    have hm : (afterFollow rand (nextFrame dt now (UpdateGame rand grow s))).snake.transform.position
        = ⟨0.0 + s.dX * dt, 0.0 + s.dY * dt⟩ := by
      rw [(afterFollow_snake rand (nextFrame dt now (UpdateGame rand grow s))).1]
      show (⟨(UpdateGame rand grow s).snake.transform.position.x + (UpdateGame rand grow s).dX * dt,
        (UpdateGame rand grow s).snake.transform.position.y + (UpdateGame rand grow s).dY * dt⟩
          : Vector F) = _
      rw [hpos, hdx, hdy]
    split
    · rw [GameOver_eq]
      exact hm
    · exact hm

/-- C22 at a concrete input: the frame of `fruitAhead` with score 4 ends in a level-up with
the head at the origin, direction Stopped and velocity (0.25, 0) as before; in the
following frame, one second later, the head moves to (0.25, 0). -/
theorem C22_velocity_kept_witness :
    (UpdateGame constRand doubling { fruitAhead with score := 4 }).dir = eDirection.STOP
      ∧ (UpdateGame constRand doubling { fruitAhead with score := 4 }).dX = 0.25
      ∧ (UpdateGame constRand doubling { fruitAhead with score := 4 }).tailOffset = ⟨-0.07, 0.0⟩
      ∧ (UpdateGame constRand doubling
          (nextFrame 1.0 2000
            (UpdateGame constRand doubling { fruitAhead with score := 4 }))).snake.transform.position
          = ⟨0.25, 0.0⟩ :=
  ⟨((C22_velocity_kept constRand doubling { fruitAhead with score := 4 } 1.0 2000).2.2
      (by decide) (by decide) (by decide) (by decide)).2.1,
   ((C22_velocity_kept constRand doubling { fruitAhead with score := 4 } 1.0 2000).2.2
      (by decide) (by decide) (by decide) (by decide)).2.2.1,
   ((C22_velocity_kept constRand doubling { fruitAhead with score := 4 } 1.0 2000).2.2
      (by decide) (by decide) (by decide) (by decide)).2.2.2.2.1,
   ((C22_velocity_kept constRand doubling { fruitAhead with score := 4 } 1.0 2000).2.2
      (by decide) (by decide) (by decide) (by decide)).2.2.2.2.2.2.2 (by decide) (by decide)⟩

end Claims

end Snake
